import Mathlib

/-!
Verification of the Document Assembly & Math Compilation Engine of the
ai-word-editor repository.

The development shallowly embeds the relevant parts of the source:

* `src/latex_converter.py` — the math tokenizer and recursive-descent
  compiler producing OMML (Office Open XML math) fragments;
* `src/doc_generator.py` — the two-phase renderer: Phase 1 run-level
  paragraph rendering (`create_document`) and Phase 2 XML post-processing
  (`post_process_footnotes`, `post_process_endnotes`), the bookmark
  pre-scan and cross-reference fields;
* `src/numbering_generator.py` — custom multi-level numbering creation
  and style linking.

XML trees (lxml / ElementTree elements) are embedded as the inductive
type `Xml`: an element has a qualified tag (written with its namespace
prefix, e.g. "w:p" for the WordprocessingML `p` element), an ordered
attribute list (lxml preserves insertion order), an optional text
payload (lxml's `.text`; none of the code under study uses element
tails), and a list of children.

Python exceptions are embedded with `Except PErr`; the recursive-descent
parser additionally takes a fuel argument so that all definitions are
structurally recursive and computable.  Fuel exhaustion is mapped to an
error value; the top-level compile entry point supplies fuel that is far
more than the source's recursion can consume for the inputs considered.
-/

namespace AWE

/-- Embedded Python exception outcomes.  `attributeError` stands for the
`AttributeError` raised when `None` is used where a token string is
expected, `typeError` for the `TypeError` raised by the OMML builders on
`None` arguments, and `fuelExhausted` is an artifact of the fuel-based
embedding (it never occurs at the fuel supplied by the entry points for
the inputs considered in this development). -/
inductive PErr where
  | attributeError
  | typeError
  | fuelExhausted
deriving Repr, DecidableEq

/-- An XML element: qualified tag, ordered attributes, optional text
payload, children.  This mirrors an lxml/ElementTree element as used by
the source (no tail text is ever produced or inspected there). -/
inductive Xml where
  | elem (tag : String) (attrs : List (String × String)) (txt : Option String)
      (children : List Xml)
deriving Repr

/-- Tag of an element. -/
def Xml.tagOf : Xml → String
  | .elem t _ _ _ => t

/-- Attribute lookup (`element.get(name)`). -/
def Xml.attr : Xml → String → Option String
  | .elem _ a _ _, name => a.lookup name

/-- Children of an element (`list(element)`). -/
def Xml.kids : Xml → List Xml
  | .elem _ _ _ cs => cs

/-- Text payload of an element (`element.text`). -/
def Xml.textOf : Xml → Option String
  | .elem _ _ t _ => t

/-- `SubElement`-style append of a child at the end. -/
def appendChild : Xml → Xml → Xml
  | .elem t a s cs, c => .elem t a s (cs ++ [c])

/-- Left/right brace characters, written via their code points so that no
string literal in this file contains a raw brace. -/
def lbrace : String := String.singleton (Char.ofNat 123)

def rbrace : String := String.singleton (Char.ofNat 125)

/-! ## Kernel-computable string primitives

The Lean core versions of `splitOn`, `replace`, `startsWith`, … are
defined by well-founded recursion on byte positions and therefore do not
reduce inside the kernel.  The Python string operations used by the
source are re-implemented here structurally over the character list of
the string, so that every theorem about a concrete input can be settled
by `rfl`/`decide`.  The consumed-characters fuel argument equals the
input length plus one, which is always sufficient. -/

/-- Boolean prefix test on character lists. -/
def listIsPfx : List Char → List Char → Bool
  | [], _ => true
  | _ :: _, [] => false
  | a :: as, b :: bs => a = b && listIsPfx as bs

/-- Python `s.startswith(p)`. -/
def pyStartsWith (s p : String) : Bool := listIsPfx p.data s.data

/-- Python `s.endswith(p)`. -/
def pyEndsWith (s p : String) : Bool := listIsPfx p.data.reverse s.data.reverse

/-- Auxiliary loop of `pySplit`. -/
def pySplitGo (sep : List Char) : Nat → List Char → List Char → List String
  | 0, cur, rest => [String.mk (cur.reverse ++ rest)]
  | fuel + 1, cur, rest =>
      if listIsPfx sep rest then
        String.mk cur.reverse :: pySplitGo sep fuel [] (rest.drop sep.length)
      else
        match rest with
        | [] => [String.mk cur.reverse]
        | c :: rs => pySplitGo sep fuel (c :: cur) rs

/-- Python `s.split(sep)` for a non-empty separator: non-overlapping,
left-to-right, keeping empty pieces. -/
def pySplit (s sep : String) : List String :=
  if sep.data.isEmpty then [s] else pySplitGo sep.data (s.data.length + 1) [] s.data

/-- Auxiliary loop of `pyReplace`. -/
def pyReplaceGo (pat repl : List Char) : Nat → List Char → List Char → List Char
  | 0, acc, rest => acc.reverse ++ rest
  | fuel + 1, acc, rest =>
      if listIsPfx pat rest then
        pyReplaceGo pat repl fuel (repl.reverse ++ acc) (rest.drop pat.length)
      else
        match rest with
        | [] => acc.reverse
        | c :: rs => pyReplaceGo pat repl fuel (c :: acc) rs

/-- Python `s.replace(pat, repl)` for a non-empty pattern: every
non-overlapping occurrence is replaced. -/
def pyReplace (s pat repl : String) : String :=
  if pat.data.isEmpty then s
  else String.mk (pyReplaceGo pat.data repl.data (s.data.length + 1) [] s.data)

/-- Auxiliary loop of `strContains`. -/
def strContainsGo (pat : List Char) : List Char → Bool
  | [] => listIsPfx pat []
  | c :: rs => listIsPfx pat (c :: rs) || strContainsGo pat rs

/-- Python `pat in s` (substring containment) for a non-empty pattern. -/
def strContains (s pat : String) : Bool := strContainsGo pat.data s.data

/-- Digit-list parser for `pyToInt`. -/
def digitsToNat : List Char → Option Nat → Option Nat
  | [], acc => acc
  | c :: rs, acc =>
      if c.isDigit then
        digitsToNat rs (some ((acc.getD 0) * 10 + (c.toNat - 48)))
      else none

/-- Python `int(s)` restricted to canonical decimal notation with an
optional leading minus sign — the only shapes the source ever feeds it
(XML id attributes it wrote itself).  Anything else is `none`. -/
def pyToInt (s : String) : Option Int :=
  match s.data with
  | '-' :: rs => (digitsToNat rs none).map (fun n => -(n : Int))
  | rs => (digitsToNat rs none).map (fun n => (n : Int))

/-- Python `s.strip()` (ASCII whitespace suffices for every string the
source strips). -/
def pyStrip (s : String) : String :=
  String.mk ((s.data.dropWhile Char.isWhitespace).reverse.dropWhile Char.isWhitespace |>.reverse)

/-! ## Locating a placeholder `w:t` (document-order xpath `.//w:t[text()=ph]`)

`post_process_footnotes` locates the first `w:t` element in document
order whose text equals the placeholder.  We return the path of child
indices from the root to that `w:t`; the run to be replaced is its
parent, i.e. the node at the path with the last index dropped. -/

mutual

def findT (ph : String) : Xml → Option (List Nat)
  | .elem tag _ txt cs =>
      if tag = "w:t" ∧ txt = some ph then some []
      else findTL ph 0 cs

def findTL (ph : String) (i : Nat) : List Xml → Option (List Nat)
  | [] => none
  | c :: rest =>
      match findT ph c with
      | some p => some (i :: p)
      | none => findTL ph (i + 1) rest

end

/-- Replace the child at index `i` with the list `new` (the source's
`addprevious` of each new run in reverse order followed by `remove` of
the placeholder run amounts to exactly this splice). -/
def spliceAt (i : Nat) (new : List Xml) (cs : List Xml) : List Xml :=
  cs.take i ++ new ++ cs.drop (i + 1)

/-- Modify the `i`-th entry of a list with `f`. -/
def listModify (f : Xml → Xml) : Nat → List Xml → List Xml
  | _, [] => []
  | 0, c :: cs => f c :: cs
  | n + 1, c :: cs => c :: listModify f n cs

/-- Tree surgery: given the path to the run to replace (the path of the
found `w:t` with its last index dropped), splice `newRuns` in place of
that run inside its parent. -/
def replaceRunAt (newRuns : List Xml) : List Nat → Xml → Xml
  | [], x => x
  | [i], .elem t a s cs => .elem t a s (spliceAt i newRuns cs)
  | i :: rest, .elem t a s cs => .elem t a s (listModify (replaceRunAt newRuns rest) i cs)

/-! ## Footnote post-processing (`post_process_footnotes`, doc_generator.py 389-546)

The function unzips the package; here we model the two XML parts it
mutates: the main document part tree and the footnotes part tree
(`None` when `word/footnotes.xml` does not exist yet).  The relationship
and content-type bookkeeping touches no claim and is not modelled. -/

/-- A fresh footnotes part: the two mandatory separator entries with ids
-1 and 0 (attribute order as inserted by the source). -/
def emptyFootnotesRoot : Xml :=
  .elem "w:footnotes" [] none
    [.elem "w:footnote" [("w:id", "-1"), ("w:type", "separator")] none [],
     .elem "w:footnote" [("w:id", "0"), ("w:type", "continuationSeparator")] none []]

/-- Numeric value of an attribute, as xpath's number() coercion used by
`@w:id > "0"`: a missing or non-numeric id compares false. -/
def attrInt (x : Xml) (name : String) : Option Int :=
  (x.attr name).bind pyToInt

mutual

/-- Ids of all `w:footnote` descendants (and the node itself) whose
`w:id` attribute is numerically greater than 0, in document order. -/
def fnIds : Xml → List Int
  | .elem tag attrs _ cs =>
      (match (attrs.lookup "w:id").bind pyToInt with
       | some n => if tag = "w:footnote" ∧ n > 0 then [n] else []
       | none => []) ++ fnIdsL cs

def fnIdsL : List Xml → List Int
  | [] => []
  | c :: rest => fnIds c ++ fnIdsL rest

end

/-- xpath `.//w:footnote[@w:id > "0"]` on the footnotes root: the `.//`
axis covers descendants only, so the search starts from the children. -/
def footnoteIdsAbove0 (root : Xml) : List Int := fnIdsL root.kids

/-- `max(existing_ids) + 1 if existing_ids else 1`. -/
def nextNoteId (ids : List Int) : Int :=
  match ids with
  | [] => 1
  | x :: xs => xs.foldl max x + 1

/-- The footnote entry appended to the footnotes part for one note
(doc_generator.py 453-465): paragraph styled FootnoteText, a reference
run carrying `w:footnoteRef`, and the note text prefixed with one space
and marked space-preserving. -/
def footnoteEntry (id : Int) (note : String) : Xml :=
  .elem "w:footnote" [("w:id", toString id)] none
    [.elem "w:p" [] none
      [.elem "w:pPr" [] none [.elem "w:pStyle" [("w:val", "FootnoteText")] none []],
       .elem "w:r" [] none
         [.elem "w:rPr" [] none [.elem "w:rStyle" [("w:val", "FootnoteReference")] none []],
          .elem "w:footnoteRef" [] none []],
       .elem "w:r" [] none [.elem "w:t" [("xml:space", "preserve")] (some (" " ++ note)) []]]]

/-- `create_styled_run` of `post_process_footnotes`: a run whose
properties carry superscript vertical alignment, with an optional text
child. -/
def fnStyledRun (txt : Option String) : Xml :=
  .elem "w:r" [] none
    (.elem "w:rPr" [] none [.elem "w:vertAlign" [("w:val", "superscript")] none []] ::
      (match txt with
       | some s => [.elem "w:t" [] (some s) []]
       | none => []))

/-- The run carrying the `w:footnoteReference` construct. -/
def fnRefRun (id : Int) : Xml :=
  appendChild (fnStyledRun none) (.elem "w:footnoteReference" [("w:id", toString id)] none [])

/-- The reference-mark run sequence for one footnote: the reference
format is split on its `#` marker into prefix and suffix, each rendered
as a superscript run when non-empty, with the reference run between
them (doc_generator.py 479-498). -/
def fnNewRuns (fmt : String) (id : Int) : List Xml :=
  let parts := pySplit fmt "#"
  let pfx := parts.headD ""
  let sfx := if parts.length > 1 then parts.getD 1 "" else ""
  (if pfx ≠ "" then [fnStyledRun (some pfx)] else []) ++
    [fnRefRun id] ++
    (if sfx ≠ "" then [fnStyledRun (some sfx)] else [])

/-- One iteration of the injection loop (doc_generator.py 447-505).
State is the pair (document tree, footnotes root).  Note that the new
footnote entry is appended to the footnotes root BEFORE the placeholder
is searched for in the document part; a miss merely skips the document
surgery (`continue`). -/
def fnInjectStep (fmt : String) (st : Xml × Xml) (inj : String × String) : Xml × Xml :=
  let ids := footnoteIdsAbove0 st.2
  let newId := nextNoteId ids
  let root1 := appendChild st.2 (footnoteEntry newId inj.2)
  match findT inj.1 st.1 with
  | none => (st.1, root1)
  | some path => (replaceRunAt (fnNewRuns fmt newId) path.dropLast st.1, root1)

/-- `post_process_footnotes` on the two XML parts it mutates.  `fnPart`
is the parsed `word/footnotes.xml` when that part already exists.  When
the injection map is empty the package is returned untouched. -/
def post_process_footnotes (doc : Xml) (fnPart : Option Xml)
    (inject : List (String × String)) (fmt : String) : Xml × Option Xml :=
  if inject.isEmpty then (doc, fnPart)
  else
    let root0 := fnPart.getD emptyFootnotesRoot
    let r := inject.foldl (fnInjectStep fmt) (doc, root0)
    (r.1, some r.2)

/-! ## Endnote post-processing (`post_process_endnotes`, doc_generator.py 549-687)

Unlike the footnote pass, the endnote pass reads `word/document.xml` as
a plain string (doc_generator.py 596-597), serializes the new reference
runs with `ET.tostring` and substitutes that string for every occurrence
of the placeholder with `str.replace` (643-644).  Only the endnotes part
itself is handled as a tree. -/

/-- The WordprocessingML namespace URI, declared by `ET.tostring` on the
root of every serialized fragment because the source registers the `w`
prefix for it. -/
def wNsDecl : String :=
  " xmlns:w=\"http://schemas.openxmlformats.org/wordprocessingml/2006/main\""

/-- Serialized attribute list, `name="value"` pairs in order. -/
def serializeAttrs : List (String × String) → String
  | [] => ""
  | (n, v) :: rest => " " ++ n ++ "=\"" ++ v ++ "\"" ++ serializeAttrs rest

mutual

/-- `ET.tostring(elem, encoding='unicode')`: the fragment root carries
the registered `xmlns:w` declaration; an element with no text and no
children is written in the short form with a space before the slash, as
ElementTree does.  Character escaping is omitted: no string serialized
by the source here contains an XML-special character. -/
def serializeX (top : Bool) : Xml → String
  | .elem tag attrs txt cs =>
      let head := "<" ++ tag ++ (if top then wNsDecl else "") ++ serializeAttrs attrs
      match txt, cs with
      | none, [] => head ++ " />"
      | _, _ => head ++ ">" ++ txt.getD "" ++ serializeL cs ++ "</" ++ tag ++ ">"

def serializeL : List Xml → String
  | [] => ""
  | c :: rest => serializeX false c ++ serializeL rest

end

/-- A fresh endnotes part: the two mandatory separator entries. -/
def emptyEndnotesRoot : Xml :=
  .elem "w:endnotes" [] none
    [.elem "w:endnote" [("w:id", "-1"), ("w:type", "separator")] none [],
     .elem "w:endnote" [("w:id", "0"), ("w:type", "continuationSeparator")] none []]

/-- `findall('w:endnote')` on the endnotes root (direct children only)
filtered to positive numeric ids (doc_generator.py 600-601). -/
def endnoteIdsAbove0 (root : Xml) : List Int :=
  root.kids.filterMap fun c =>
    if c.tagOf = "w:endnote" then
      match attrInt c "w:id" with
      | some n => if n > 0 then some n else none
      | none => none
    else none

/-- The endnote entry appended to the endnotes part for one note
(doc_generator.py 604-615); unlike the footnote variant, no
space-preserve attribute is set on the text element. -/
def endnoteEntry (id : Int) (note : String) : Xml :=
  .elem "w:endnote" [("w:id", toString id)] none
    [.elem "w:p" [] none
      [.elem "w:pPr" [] none [.elem "w:pStyle" [("w:val", "EndnoteText")] none []],
       .elem "w:r" [] none
         [.elem "w:rPr" [] none [.elem "w:rStyle" [("w:val", "EndnoteReference")] none []],
          .elem "w:endnoteRef" [] none []],
       .elem "w:r" [] none [.elem "w:t" [] (some (" " ++ note)) []]]]

/-- The run carrying the `w:endnoteReference` construct (the endnote
pass builds its styled runs exactly like the footnote pass). -/
def enRefRun (id : Int) : Xml :=
  appendChild (fnStyledRun none) (.elem "w:endnoteReference" [("w:id", toString id)] none [])

/-- The reference-mark run sequence for one endnote (doc_generator.py
617-639). -/
def enNewRuns (fmt : String) (id : Int) : List Xml :=
  let parts := pySplit fmt "#"
  let pfx := parts.headD ""
  let sfx := if parts.length > 1 then parts.getD 1 "" else ""
  (if pfx ≠ "" then [fnStyledRun (some pfx)] else []) ++
    [enRefRun id] ++
    (if sfx ≠ "" then [fnStyledRun (some sfx)] else [])

/-- `"".join([ET.tostring(part, encoding='unicode') for part in ...])`:
the serialized reference-run sequence spliced into the document string. -/
def enCombinedXml (fmt : String) (id : Int) : String :=
  String.join ((enNewRuns fmt id).map (serializeX true))

/-- One iteration of the endnote injection loop (doc_generator.py
599-647).  State is the pair (document XML string, endnotes root).  The
document side is plain substring substitution of the serialized runs
for every occurrence of the placeholder text. -/
def enInjectStep (fmt : String) (st : String × Xml) (inj : String × String) : String × Xml :=
  let ids := endnoteIdsAbove0 st.2
  let newId := nextNoteId ids
  let root1 := appendChild st.2 (endnoteEntry newId inj.2)
  let combined := enCombinedXml fmt newId
  let doc1 := if strContains st.1 inj.1 then pyReplace st.1 inj.1 combined else st.1
  (doc1, root1)

/-- `post_process_endnotes` on the document string and the endnotes
part it mutates. -/
def post_process_endnotes (docStr : String) (enPart : Option Xml)
    (inject : List (String × String)) (fmt : String) : String × Option Xml :=
  if inject.isEmpty then (docStr, enPart)
  else
    let root0 := enPart.getD emptyEndnotesRoot
    let r := inject.foldl (enInjectStep fmt) (docStr, root0)
    (r.1, some r.2)

/-! ## Math compiler (`latex_converter.py`)

The tokenizer and the recursive-descent parser are embedded as total
functions; the parser carries a fuel argument (decremented on every
call) so that every definition is structurally recursive and
kernel-computable.  The entry point supplies `20 * tokens + 20` fuel,
far more than the source's recursion — which always consumes at least
one token per `_parse_single_element` call — can use. -/

/-- `GREEK_LETTERS ∪ OPERATORS ∪ SYMBOLS` (latex_converter.py 18-34).
The three source dictionaries have pairwise disjoint keys, so the merge
order is immaterial and an association list with first-match lookup is
a faithful model of the merged dict. -/
def symbolMap : List (String × String) :=
  [("\\alpha", "α"), ("\\beta", "β"), ("\\gamma", "γ"), ("\\delta", "δ"),
   ("\\epsilon", "ε"), ("\\zeta", "ζ"), ("\\eta", "η"), ("\\theta", "θ"),
   ("\\iota", "ι"), ("\\kappa", "κ"), ("\\lambda", "λ"), ("\\mu", "μ"),
   ("\\nu", "ν"), ("\\xi", "ξ"), ("\\omicron", "ο"), ("\\pi", "π"),
   ("\\rho", "ρ"), ("\\sigma", "σ"), ("\\tau", "τ"), ("\\upsilon", "υ"),
   ("\\phi", "φ"), ("\\chi", "χ"), ("\\psi", "ψ"), ("\\omega", "ω"),
   ("\\Gamma", "Γ"), ("\\Delta", "Δ"), ("\\Theta", "Θ"), ("\\Lambda", "Λ"),
   ("\\Xi", "Ξ"), ("\\Pi", "Π"), ("\\Sigma", "Σ"), ("\\Upsilon", "Υ"),
   ("\\Phi", "Φ"), ("\\Psi", "Ψ"), ("\\Omega", "Ω"), ("\\varepsilon", "ɛ"),
   ("\\vartheta", "ϑ"), ("\\varpi", "ϖ"), ("\\varrho", "ϱ"),
   ("\\varsigma", "ς"), ("\\varphi", "ϕ"),
   ("\\pm", "±"), ("\\times", "×"), ("\\div", "÷"), ("\\cdot", "⋅"),
   ("\\ast", "∗"), ("\\cup", "∪"), ("\\cap", "∩"), ("\\in", "∈"),
   ("\\notin", "∉"), ("\\subset", "⊂"), ("\\supset", "⊃"),
   ("\\subseteq", "⊆"), ("\\supseteq", "⊇"), ("\\neq", "≠"),
   ("\\equiv", "≡"), ("\\approx", "≈"), ("\\le", "≤"), ("\\ge", "≥"),
   ("\\geq", "≥"), ("\\ll", "≪"), ("\\gg", "≫"), ("\\infty", "∞"),
   ("\\nabla", "∇"), ("\\partial", "∂"), ("\\forall", "∀"),
   ("\\exists", "∃"), ("\\angle", "∠"), ("\\hbar", "ħ"), ("\\prime", "′"),
   ("\\leftarrow", "←"), ("\\rightarrow", "→"), ("\\to", "→"),
   ("\\uparrow", "↑"), ("\\downarrow", "↓"), ("\\leftrightarrow", "↔"),
   ("\\Leftarrow", "⇐"), ("\\Rightarrow", "⇒"), ("\\implies", "⇒"),
   ("\\Uparrow", "⇑"), ("\\Downarrow", "⇓"), ("\\Leftrightarrow", "⇔"),
   ("\\langle", "⟨"), ("\\rangle", "⟩"), ("\\\x7b", "\x7b"),
   ("\\\x7d", "\x7d"), ("\\ldots", "…"), ("\\cdots", "⋯"),
   ("\\ddots", "⋱"), ("\\ ", " "), ("\\quad", "    "), ("\\,", "\u2009")]

/-- `KNOWN_FUNCTIONS` (latex_converter.py 35-37). -/
def knownFunctions : List String :=
  ["\\sin", "\\cos", "\\tan", "\\csc", "\\sec", "\\cot", "\\sinh", "\\cosh",
   "\\tanh", "\\coth", "\\arcsin", "\\arccos", "\\arctan", "\\log", "\\ln",
   "\\exp", "\\det", "\\dim", "\\min", "\\max", "\\sup", "\\inf"]

/-- `NARY_OPERATORS` (latex_converter.py 38). -/
def naryOperators : List (String × String) :=
  [("\\sum", "∑"), ("\\int", "∫"), ("\\prod", "∏"), ("\\oint", "∮"),
   ("\\iint", "∬")]

/-- `BOUNDARY_TOKENS` (latex_converter.py 39). -/
def boundaryTokens : List String :=
  ["+", "-", "*", "/", "=", "\\neq", "<", ">", "\\le", "\\ge", ",", "&",
   "\\\\", "\\right"]

/-! ### OMML element builders (latex_converter.py 54-186) -/

/-- `_create_run_omml`: an `m:r` run, optionally carried in text style,
whose `m:t` child is marked space-preserving when the text starts or
ends with a space. -/
def mkRunOmml (text : String) (isText : Bool) : Xml :=
  .elem "m:r" [] none
    ((if isText then
        [Xml.elem "m:rPr" [] none [.elem "m:sty" [("m:val", "t")] none []]]
      else []) ++
     [Xml.elem "m:t"
        (if pyStartsWith text " " || pyEndsWith text " " then
           [("w:space", "preserve")]
         else [])
        (some text) []])

/-- `_create_fraction_omml`. -/
def mkFrac (num den : List Xml) : Xml :=
  .elem "m:f" [] none [.elem "m:num" [] none num, .elem "m:den" [] none den]

/-- `_create_sqrt_omml`: a radical with hidden degree. -/
def mkSqrt (base : List Xml) : Xml :=
  .elem "m:rad" [] none
    [.elem "m:radPr" [] none [.elem "m:degHide" [("m:val", "1")] none []],
     .elem "m:deg" [] none [],
     .elem "m:e" [] none base]

/-- `_create_accent_omml`. -/
def mkAccent (base : List Xml) (ch : String) : Xml :=
  .elem "m:acc" [] none
    [.elem "m:accPr" [] none [.elem "m:chr" [("m:val", ch)] none []],
     .elem "m:e" [] none base]

/-- `_create_superscript_omml`. -/
def mkSup (base sup : List Xml) : Xml :=
  .elem "m:sSup" [] none [.elem "m:e" [] none base, .elem "m:sup" [] none sup]

/-- `_create_subscript_omml`. -/
def mkSub (base sub : List Xml) : Xml :=
  .elem "m:sSub" [] none [.elem "m:e" [] none base, .elem "m:sub" [] none sub]

/-- `_create_subsup_omml`: the combined subscript-superscript node. -/
def mkSubSup (base sub sup : List Xml) : Xml :=
  .elem "m:sSubSup" [] none
    [.elem "m:e" [] none base, .elem "m:sub" [] none sub,
     .elem "m:sup" [] none sup]

/-- `_create_nary_omml`: sub/sup child elements are emitted only when
the corresponding bound list is non-empty (Python truthiness). -/
def mkNary (op : String) (sub sup base : List Xml) : Xml :=
  .elem "m:nary" [] none
    ([Xml.elem "m:naryPr" [] none [.elem "m:chr" [("m:val", op)] none []]] ++
     (if sub.isEmpty then [] else [Xml.elem "m:sub" [] none sub]) ++
     (if sup.isEmpty then [] else [Xml.elem "m:sup" [] none sup]) ++
     [Xml.elem "m:e" [] none base])

/-- `_create_delimiter_omml`. -/
def mkDelim (openC closeC : String) (content : List Xml) : Xml :=
  .elem "m:d" [] none
    [.elem "m:dPr" [] none
       [.elem "m:begChr" [("m:val", openC)] none [],
        .elem "m:endChr" [("m:val", closeC)] none []],
     .elem "m:e" [] none content]

/-- `_create_function_omml`: a non-delimiter argument list is first
wrapped in round parentheses. -/
def mkFunc (name : String) (args : List Xml) : Xml :=
  let args1 :=
    match args with
    | [] => args
    | a :: _ => if a.tagOf = "m:d" then args else [mkDelim "(" ")" args]
  .elem "m:func" [] none
    [.elem "m:fName" [] none [mkRunOmml name false],
     .elem "m:e" [] none args1]

/-- `_create_matrix_omml`. -/
def mkMatrix (rows : List (List (List Xml))) : Xml :=
  .elem "m:m" [] none
    (rows.map fun row =>
      Xml.elem "m:mr" [] none (row.map fun cell => Xml.elem "m:e" [] none cell))

/-- Replace the value of the first `m:sty` child, appending one if none
exists (`_apply_style_recursively`'s inner find-or-create). -/
def setAttrList (name v : String) : List (String × String) → List (String × String)
  | [] => [(name, v)]
  | (n, w) :: rest => if n = name then (n, v) :: rest else (n, w) :: setAttrList name v rest

def setStyIn (style : String) : List Xml → List Xml
  | [] => [.elem "m:sty" [("m:val", style)] none []]
  | c :: rest =>
      if c.tagOf = "m:sty" then
        (match c with | .elem t a s k => Xml.elem t (setAttrList "m:val" style a) s k) :: rest
      else c :: setStyIn style rest

def modifyFirstRPr (style : String) : List Xml → List Xml
  | [] => []
  | c :: rest =>
      if c.tagOf = "m:rPr" then
        (match c with | .elem t a s k => Xml.elem t a s (setStyIn style k)) :: rest
      else c :: modifyFirstRPr style rest

mutual

/-- `_apply_style_recursively`: on an `m:r` run, force its run
properties' `m:sty` value; otherwise recurse into the children. -/
def applyStyleX (style : String) : Xml → Xml
  | .elem tag attrs txt cs =>
      if tag = "m:r" then
        .elem tag attrs txt
          (if cs.any (fun c => c.tagOf = "m:rPr") then modifyFirstRPr style cs
           else Xml.elem "m:rPr" [] none
               [.elem "m:sty" [("m:val", style)] none []] :: cs)
      else .elem tag attrs txt (applyStyleL style cs)

def applyStyleL (style : String) : List Xml → List Xml
  | [] => []
  | c :: rest => applyStyleX style c :: applyStyleL style rest

end

mutual

/-- Texts of all `m:t` elements in the subtree rooted at a node
(self included), document order. -/
def mtSelf : Xml → List String
  | .elem tag _ txt cs =>
      (if tag = "m:t" then
         match txt with
         | some s => [s]
         | none => []
       else []) ++ mtList cs

def mtList : List Xml → List String
  | [] => []
  | c :: rest => mtSelf c ++ mtList rest

end

/-- `_extract_text`: concatenation of the `.//m:t` texts of each listed
element (the xpath descends, so the element itself is excluded). -/
def extractText (els : List Xml) : String :=
  String.join (els.map fun e => String.join (mtList e.kids))

/-! ### Tokenizer (`tokenize`, latex_converter.py 199-211) -/

def lbraceChar : Char := Char.ofNat 123

def rbraceChar : Char := Char.ofNat 125

def isAsciiLetter (c : Char) : Bool :=
  ('a' ≤ c && c ≤ 'z') || ('A' ≤ c && c ≤ 'Z')

def isAsciiAlnum (c : Char) : Bool :=
  isAsciiLetter c || ('0' ≤ c && c ≤ '9')

/-- The single structural characters of the character class in the
tokenizer's second regex. -/
def isStructuralChar (c : Char) : Bool :=
  c = lbraceChar || c = rbraceChar || c = '[' || c = ']' || c = '(' ||
    c = ')' || c = '|' || c = '^' || c = '_' || c = '&'

def takeLettersGo : List Char → List Char × List Char
  | [] => ([], [])
  | c :: rest =>
      if isAsciiLetter c then
        let (run, r) := takeLettersGo rest
        (c :: run, r)
      else ([], c :: rest)

def takeAlnumGo : List Char → List Char × List Char
  | [] => ([], [])
  | c :: rest =>
      if isAsciiAlnum c then
        let (run, r) := takeAlnumGo rest
        (c :: run, r)
      else ([], c :: rest)

/-- Strip an exact character sequence from the front of a list. -/
def stripChars : List Char → List Char → Option (List Char)
  | [], l => some l
  | c :: cs, d :: ds => if c = d then stripChars cs ds else none
  | _ :: _, [] => none

/-- Match the environment alternatives of the tokenizer's first regex at
the current position: backslash, the keyword (`begin` or `end`), an
open brace, one or more letters, an optional star, a close brace. -/
def tryEnvTok (kw : String) (l : List Char) : Option (String × List Char) :=
  match stripChars ('\\' :: kw.data ++ [lbraceChar]) l with
  | none => none
  | some rest0 =>
      let (letters, rest1) := takeLettersGo rest0
      if letters.isEmpty then none
      else
        let (star, rest2) :=
          match rest1 with
          | '*' :: r => (['*'], r)
          | r => (([] : List Char), r)
        match rest2 with
        | c :: rest3 =>
            if c = rbraceChar then
              some (String.mk ('\\' :: kw.data ++ [lbraceChar] ++ letters ++ star ++ [rbraceChar]),
                rest3)
            else none
        | [] => none

/-- Match the command alternative `\\(?:[a-zA-Z]+\*?|\S)` at a
backslash: letters with an optional trailing star, else one single
non-space character. -/
def tryCommandTok (l : List Char) : Option (String × List Char) :=
  match l with
  | '\\' :: rest =>
      let (letters, rest1) := takeLettersGo rest
      if letters.isEmpty then
        match rest with
        | c2 :: rest2 => if c2.isWhitespace then none else some (String.mk ['\\', c2], rest2)
        | [] => none
      else
        match rest1 with
        | '*' :: rest2 => some (String.mk ('\\' :: letters ++ ['*']), rest2)
        | _ => some (String.mk ('\\' :: letters), rest1)
  | _ => none

/-- Main tokenizer loop: command/environment tokens are recognized at
each backslash (leftmost-first, as the splitting regex does); remaining
text is split into structural single characters, maximal alphanumeric
runs, and other single characters — where a newline, unmatched by `.`,
is dropped. -/
def tokenizeGo : Nat → List Char → List String
  | 0, _ => []
  | _, [] => []
  | f + 1, c :: rest =>
      if c = '\\' then
        match tryEnvTok "begin" (c :: rest) with
        | some (tok, r) => tok :: tokenizeGo f r
        | none =>
          match tryEnvTok "end" (c :: rest) with
          | some (tok, r) => tok :: tokenizeGo f r
          | none =>
            match tryCommandTok (c :: rest) with
            | some (tok, r) => tok :: tokenizeGo f r
            | none => String.mk [c] :: tokenizeGo f rest
      else if isStructuralChar c then String.mk [c] :: tokenizeGo f rest
      else if isAsciiAlnum c then
        let (run, r) := takeAlnumGo (c :: rest)
        String.mk run :: tokenizeGo f r
      else if c = '\n' then tokenizeGo f rest
      else String.mk [c] :: tokenizeGo f rest

/-- Python `token.isspace()`. -/
def pyIsSpace (t : String) : Bool :=
  !t.data.isEmpty && t.data.all Char.isWhitespace

/-- `tokenize` (latex_converter.py 199-211): regex-split into tokens,
then whitespace-only tokens are discarded. -/
def tokenize (s : String) : List String :=
  (tokenizeGo (s.data.length + 1) s.data).filter fun t => !pyIsSpace t

/-! ### Recursive-descent parser (latex_converter.py 190-337)

Each function takes the token list and the cursor position of the
`ParserState` explicitly and returns the parsed OMML elements together
with the new position, inside `Except PErr` for the Python exceptions
the source can raise (calling `.startswith` on the `None` returned by
`advance` past the end, or handing `None` to an OMML builder). -/

/-- `state.current_token()`. -/
def currentTok (toks : List String) (pos : Nat) : Option String := toks[pos]?

/-- Position after `state.advance()` (the cursor does not move past the
end). -/
def advPos (toks : List String) (pos : Nat) : Nat :=
  if pos < toks.length then pos + 1 else pos

/-- Python truthiness of a script-argument variable: `None` and the
empty element list are both falsy. -/
def pyTruthy : Option (List Xml) → Bool
  | some l => !l.isEmpty
  | none => false

/-- The final dispatch of `_handle_scripts` (latex_converter.py
264-266): note that a falsy subscript together with a `None`
superscript reaches `_create_superscript_omml(base, None)`, which
raises a `TypeError` in the source. -/
def mkScripts (base : List Xml) (sub sup : Option (List Xml)) (pos : Nat) :
    Except PErr (Xml × Nat) :=
  if pyTruthy sub && pyTruthy sup then
    .ok (mkSubSup base (sub.getD []) (sup.getD []), pos)
  else if pyTruthy sub then .ok (mkSub base (sub.getD []), pos)
  else
    match sup with
    | some l => .ok (mkSup base l, pos)
    | none => .error .typeError

/-- `re.match(r'\\begin\{([a-zA-Z]+\*?)\}', token)` — extract the
environment name from a `\begin` token (prefix match, as `re.match`). -/
def matchBeginEnv (token : String) : Option String :=
  match stripChars ('\\' :: "begin".data ++ [lbraceChar]) token.data with
  | none => none
  | some rest0 =>
      let (letters, rest1) := takeLettersGo rest0
      if letters.isEmpty then none
      else
        let (star, rest2) :=
          match rest1 with
          | '*' :: r => (['*'], r)
          | r => (([] : List Char), r)
        match rest2 with
        | c :: _ => if c = rbraceChar then some (String.mk (letters ++ star)) else none
        | [] => none

/-- `token[1:] + " "` for function names. -/
def funcNameOf (token : String) : String := String.mk token.data.tail ++ " "

/-- The bundle of the six mutually recursive parse functions of the
source, at one fuel level.  (A plain mutual block would be compiled by
well-founded recursion, which the kernel cannot reduce; recursing once
on the fuel and producing all six closures keeps every definition
structural and computable.) -/
structure ParserFns where
  pTokens : List String → Nat → List String → Except PErr (List Xml × Nat)
  pSingle : List String → Nat → Except PErr (List Xml × Nat)
  pAtomic : List String → Nat → Except PErr (List Xml × Nat)
  pArg : List String → Nat → Except PErr (List Xml × Nat)
  pScripts : List String → Nat → List Xml → Except PErr (Xml × Nat)
  pMatrix : List String → Nat → String → List (List (List Xml)) → List (List Xml) →
    Except PErr (List (List (List Xml)) × Nat)

/-- One fuel step of the recursive-descent parser: each body is the
line-by-line translation of its source function, with nested calls
taken from the previous fuel level. -/
def parserCore : Nat → ParserFns
  | 0 =>
    { pTokens := fun _ _ _ => .error .fuelExhausted
      pSingle := fun _ _ => .error .fuelExhausted
      pAtomic := fun _ _ => .error .fuelExhausted
      pArg := fun _ _ => .error .fuelExhausted
      pScripts := fun _ _ _ => .error .fuelExhausted
      pMatrix := fun _ _ _ _ _ => .error .fuelExhausted }
  | f + 1 =>
    let prev := parserCore f
    { -- `_parse_tokens` (latex_converter.py 325-337)
      pTokens := fun toks pos stops =>
        match currentTok toks pos with
        | none => .ok ([], pos)
        | some token =>
            if stops.contains token then
              if ["\x7d", ")", "]"].contains token then .ok ([], pos + 1)
              else .ok ([], pos)
            else
              match prev.pSingle toks pos with
              | .error e => .error e
              | .ok (base, pos1) =>
                  if currentTok toks pos1 = some "^" ∨ currentTok toks pos1 = some "_" then
                    match prev.pScripts toks pos1 base with
                    | .error e => .error e
                    | .ok (el, pos2) =>
                        match prev.pTokens toks pos2 stops with
                        | .error e => .error e
                        | .ok (els, pos3) => .ok (el :: els, pos3)
                  else
                    match prev.pTokens toks pos1 stops with
                    | .error e => .error e
                    | .ok (els, pos3) => .ok (base ++ els, pos3)
      -- `_parse_single_element` (latex_converter.py 268-323)
      pSingle := fun toks pos =>
        match currentTok toks pos with
        | none => .error .attributeError
        | some token =>
            let pos1 := pos + 1
            if pyStartsWith token "\\" then
              match symbolMap.lookup token with
              | some v => .ok ([mkRunOmml v false], pos1)
              | none =>
                if knownFunctions.contains token then
                  match prev.pArg toks pos1 with
                  | .error e => .error e
                  | .ok (argEls, pos2) =>
                      if currentTok toks pos2 = some "^" ∨ currentTok toks pos2 = some "_" then
                        match prev.pScripts toks pos2 [mkFunc (funcNameOf token) argEls] with
                        | .error e => .error e
                        | .ok (el, pos3) => .ok ([el], pos3)
                      else .ok ([mkFunc (funcNameOf token) argEls], pos2)
                else if pyStartsWith token "\\operatorname" then
                  match prev.pArg toks pos1 with
                  | .error e => .error e
                  | .ok (nameEls, pos2) =>
                      let fname := extractText nameEls
                      if pyEndsWith token "*" then .ok ([mkRunOmml fname false], pos2)
                      else
                        match prev.pArg toks pos2 with
                        | .error e => .error e
                        | .ok (argEls, pos3) =>
                            .ok ([mkFunc (fname ++ " ") argEls], pos3)
                else if token = "\\lim" then
                  if currentTok toks pos1 = some "_" then
                    match prev.pScripts toks pos1 [mkRunOmml "lim" false] with
                    | .error e => .error e
                    | .ok (el, pos2) => .ok ([el], pos2)
                  else .ok ([mkRunOmml "lim" false], pos1)
                else if token = "\\frac" then
                  match prev.pArg toks pos1 with
                  | .error e => .error e
                  | .ok (num, pos2) =>
                      match prev.pArg toks pos2 with
                      | .error e => .error e
                      | .ok (den, pos3) => .ok ([mkFrac num den], pos3)
                else if token = "\\sqrt" then
                  match prev.pArg toks pos1 with
                  | .error e => .error e
                  | .ok (b, pos2) => .ok ([mkSqrt b], pos2)
                else if token = "\\hat" then
                  match prev.pArg toks pos1 with
                  | .error e => .error e
                  | .ok (b, pos2) => .ok ([mkAccent b "^"], pos2)
                else if token = "\\vec" then
                  match prev.pArg toks pos1 with
                  | .error e => .error e
                  | .ok (b, pos2) => .ok ([mkAccent b "→"], pos2)
                else if token = "\\dot" then
                  match prev.pArg toks pos1 with
                  | .error e => .error e
                  | .ok (b, pos2) => .ok ([mkAccent b "˙"], pos2)
                else if token = "\\mathbf" then
                  match prev.pArg toks pos1 with
                  | .error e => .error e
                  | .ok (b, pos2) => .ok (applyStyleL "b" b, pos2)
                else if token = "\\mathcal" then
                  match prev.pArg toks pos1 with
                  | .error e => .error e
                  | .ok (b, pos2) => .ok (b, pos2)
                else if token = "\\text" ∧ currentTok toks pos1 = some lbrace then
                  match currentTok toks (advPos toks pos1) with
                  | none => .error .attributeError
                  | some raw =>
                      .ok ([mkRunOmml raw true],
                        advPos toks (advPos toks (advPos toks pos1)))
                else
                  match naryOperators.lookup token with
                  | some op =>
                      let s1 :=
                        if currentTok toks pos1 = some "_" then
                          prev.pArg toks (advPos toks pos1)
                        else .ok ([], pos1)
                      match s1 with
                      | .error e => .error e
                      | .ok (subB, pos2) =>
                          let s2 :=
                            if currentTok toks pos2 = some "^" then
                              prev.pArg toks (advPos toks pos2)
                            else .ok ([], pos2)
                          match s2 with
                          | .error e => .error e
                          | .ok (supB, pos3) =>
                              match prev.pTokens toks pos3 boundaryTokens with
                              | .error e => .error e
                              | .ok (baseB, pos4) =>
                                  .ok ([mkNary op subB supB baseB], pos4)
                  | none =>
                    if token = "\\left" then
                      let openC := currentTok toks pos1
                      match prev.pTokens toks (advPos toks pos1) ["\\right"] with
                      | .error e => .error e
                      | .ok (content, pos2) =>
                          let pos3 :=
                            if currentTok toks pos2 = some "\\right" then advPos toks pos2
                            else pos2
                          let closeC := currentTok toks pos3
                          match openC, closeC with
                          | some oc, some cc =>
                              .ok ([mkDelim oc cc content], advPos toks pos3)
                          | _, _ => .error .typeError
                    else
                      match matchBeginEnv token with
                      | some envName =>
                          match prev.pMatrix toks pos1 envName [] [] with
                          | .error e => .error e
                          | .ok (rows, pos2) =>
                              let matEl := mkMatrix rows
                              if envName = "pmatrix" ∨ envName = "pmatrix*" then
                                .ok ([mkDelim "(" ")" [matEl]], pos2)
                              else if envName = "bmatrix" ∨ envName = "bmatrix*" then
                                .ok ([mkDelim "[" "]" [matEl]], pos2)
                              else if envName = "vmatrix" ∨ envName = "vmatrix*" then
                                .ok ([mkDelim "|" "|" [matEl]], pos2)
                              else .ok ([matEl], pos2)
                      | none =>
                        if token = "\\\\" then .ok ([mkRunOmml " " false], pos1)
                        else .ok ([mkRunOmml token false], pos1)
            else if token = "\x7b" then prev.pTokens toks pos1 ["\x7d"]
            else .ok ([mkRunOmml token false], pos1)
      -- `_parse_atomic_expression` (latex_converter.py 213-217)
      pAtomic := fun toks pos =>
        if currentTok toks pos = some "\x7b" then
          prev.pTokens toks (advPos toks pos) ["\x7d"]
        else prev.pSingle toks pos
      -- `_parse_argument` (latex_converter.py 219-238)
      pArg := fun toks pos =>
        if currentTok toks pos = some "\x7b" then
          prev.pTokens toks (advPos toks pos) ["\x7d"]
        else if currentTok toks pos = some "(" then
          match prev.pTokens toks (advPos toks pos) [")"] with
          | .error e => .error e
          | .ok (content, pos1) => .ok ([mkDelim "(" ")" content], pos1)
        else prev.pAtomic toks pos
      -- `_handle_scripts` (latex_converter.py 255-266)
      pScripts := fun toks pos base =>
        let op1 := currentTok toks pos
        let pos1 := advPos toks pos
        if op1 = some "_" then
          match prev.pArg toks pos1 with
          | .error e => .error e
          | .ok (subArg, pos2) =>
              if currentTok toks pos2 = some "^" ∧ pyTruthy (some subArg) then
                match prev.pArg toks (advPos toks pos2) with
                | .error e => .error e
                | .ok (supArg, pos3) => mkScripts base (some subArg) (some supArg) pos3
              else mkScripts base (some subArg) none pos2
        else
          match prev.pArg toks pos1 with
          | .error e => .error e
          | .ok (supArg, pos2) =>
              if currentTok toks pos2 = some "_" ∧ pyTruthy (some supArg) then
                match prev.pArg toks (advPos toks pos2) with
                | .error e => .error e
                | .ok (subArg, pos3) => mkScripts base (some subArg) (some supArg) pos3
              else mkScripts base none (some supArg) pos2
      -- `_parse_matrix_environment` (latex_converter.py 240-253), with
      -- the loop state (`rows`, `current_row`) as accumulators
      pMatrix := fun toks pos env rows currentRow =>
        let stop := "\\end" ++ lbrace ++ env ++ rbrace
        match currentTok toks pos with
        | none => .ok ((if currentRow.isEmpty then rows else rows ++ [currentRow]), pos)
        | some t =>
            if t = stop then
              .ok ((if currentRow.isEmpty then rows else rows ++ [currentRow]), pos + 1)
            else
              match prev.pTokens toks pos ["&", "\\\\", stop] with
              | .error e => .error e
              | .ok (cell, pos1) =>
                  let row1 := currentRow ++ [cell]
                  if currentTok toks pos1 = some "&" then
                    prev.pMatrix toks (pos1 + 1) env rows row1
                  else if currentTok toks pos1 = some "\\\\" then
                    prev.pMatrix toks (pos1 + 1) env (rows ++ [row1]) []
                  else if currentTok toks pos1 = some stop then
                    .ok ((if row1.isEmpty then rows else rows ++ [row1]), pos1 + 1)
                  else prev.pMatrix toks pos1 env rows row1 }

/-- `_parse_tokens`. -/
def parseTokens (fuel : Nat) (toks : List String) (pos : Nat) (stops : List String) :
    Except PErr (List Xml × Nat) := (parserCore fuel).pTokens toks pos stops

/-- `_parse_single_element`. -/
def parseSingleElement (fuel : Nat) (toks : List String) (pos : Nat) :
    Except PErr (List Xml × Nat) := (parserCore fuel).pSingle toks pos

/-- `_parse_atomic_expression`. -/
def parseAtomic (fuel : Nat) (toks : List String) (pos : Nat) :
    Except PErr (List Xml × Nat) := (parserCore fuel).pAtomic toks pos

/-- `_parse_argument`. -/
def parseArgument (fuel : Nat) (toks : List String) (pos : Nat) :
    Except PErr (List Xml × Nat) := (parserCore fuel).pArg toks pos

/-- `_handle_scripts`. -/
def handleScripts (fuel : Nat) (toks : List String) (pos : Nat) (base : List Xml) :
    Except PErr (Xml × Nat) := (parserCore fuel).pScripts toks pos base

/-- `_parse_matrix_environment`. -/
def parseMatrixEnv (fuel : Nat) (toks : List String) (pos : Nat) (env : String)
    (rows : List (List (List Xml))) (currentRow : List (List Xml)) :
    Except PErr (List (List (List Xml)) × Nat) :=
  (parserCore fuel).pMatrix toks pos env rows currentRow

/-- Fuel supplied by the compile entry point: far above the call count
of the source's recursion, which consumes at least one token per
`_parse_single_element` call. -/
def latexFuel (toks : List String) : Nat := 20 * toks.length + 20

/-- The `m:oMathPara` wrapper built by `latex_to_omml` (341-348). -/
def oMathParaFor (alignment : String) (els : List Xml) : Xml :=
  .elem "m:oMathPara" [] none
    [.elem "m:oMathParaPr" [] none [.elem "m:jc" [("m:val", alignment)] none []],
     .elem "m:oMath" [] none els]

/-- The body of `latex_to_omml` without its `try/except`: the result is
`none` for empty token lists, and any exception of the parse propagates
as an `Except.error`. -/
def latexToOmmlRaw (s : String) (alignment : String) : Except PErr (Option Xml) :=
  let toks := tokenize s
  if toks.isEmpty then .ok none
  else
    match parseTokens (latexFuel toks) toks 0 [] with
    | .error e => .error e
    | .ok (els, _) => .ok (some (oMathParaFor alignment els))

/-- `latex_to_omml` (latex_converter.py 339-353): the catch-all
`except` turns every internal exception into a `None` result, so the
function is total over arbitrary input strings. -/
def latexToOmml (s : String) (alignment : String) : Option Xml :=
  match latexToOmmlRaw s alignment with
  | .error _ => none
  | .ok v => v

/-! ## Phase 1 renderer: run-level paragraph rendering
(`create_document`, doc_generator.py 1067-1205)

Only the run-dispatch loop over a paragraph's `content` (1141-1175) and
the per-section bookmark pre-scan (1104-1117) are modelled: these carry
every claim about Phase 1.  The `uuid4().hex` placeholder ids are
modelled by an explicit supply of opaque fresh strings consumed in
order. -/

/-- One entry of a paragraph's `content` list (the `type` string field
of the source dict is named `typ` here). -/
structure RunItem where
  typ : String
  text : String
  target_bookmark : Option String
deriving Repr, DecidableEq

/-- The paragraph properties a claim touches (`properties` dict; `none`
models a missing or empty — falsy — dict). -/
structure ParaProps where
  bookmark_id : Option String
deriving Repr, DecidableEq

/-- A paragraph-bearing element of the IR (`element` dict).  `text`
is `element.get('text', '')` with `""` standing for a missing, `None`
or empty value — all falsy in the source's `or`-chain. -/
structure ElementIR where
  typ : String
  text : String
  content : List RunItem
  properties : Option ParaProps
deriving Repr, DecidableEq

/-- Python dict insertion: overwrite the existing key in place, else
append. -/
def dictInsert (m : List (String × String)) (k v : String) : List (String × String) :=
  match m with
  | [] => [(k, v)]
  | (k0, v0) :: rest => if k0 = k then (k0, v) :: rest else (k0, v0) :: dictInsert rest k v

/-- The flattened text a bookmark paragraph contributes to the map:
`element.get('text', '') or "".join(r.get('text', '') for r in
element.get('content', []) if r.get('type') == 'text')`. -/
def flattenedText (el : ElementIR) : String :=
  if el.text ≠ "" then el.text
  else String.join ((el.content.filter fun r => r.typ = "text").map fun r => r.text)

/-- The bookmark id a paragraph registers, if any: requires a truthy
`properties` dict and a truthy `bookmark_id` value. -/
def bookmarkIdOf (el : ElementIR) : Option String :=
  match el.properties with
  | none => none
  | some p =>
      match p.bookmark_id with
      | none => none
      | some b => if b = "" then none else some b

/-- One element's contribution to the bookmark map. -/
def scanStep (m : List (String × String)) (el : ElementIR) : List (String × String) :=
  if el.typ = "paragraph" then
    match bookmarkIdOf el with
    | some b => dictInsert m b (flattenedText el)
    | none => m
  else m

/-- The per-section bookmark pre-scan (doc_generator.py 1104-1117). -/
def scanBookmarks (elements : List ElementIR) : List (String × String) :=
  elements.foldl scanStep []

/-- `add_cross_reference_field` (doc_generator.py 716-747): the five
runs of a REF field with a cached display value — begin, instruction
text, separator, the cached display run, end. -/
def addCrossReferenceField (bookmarkName displayText : String) : List Xml :=
  [.elem "w:r" [] none [.elem "w:fldChar" [("w:fldCharType", "begin")] none []],
   .elem "w:r" [] none
     [.elem "w:instrText" [("xml:space", "preserve")]
        (some (" REF " ++ bookmarkName ++ " \\h ")) []],
   .elem "w:r" [] none [.elem "w:fldChar" [("w:fldCharType", "separate")] none []],
   .elem "w:r" [] none [.elem "w:t" [] (some displayText) []],
   .elem "w:r" [] none [.elem "w:fldChar" [("w:fldCharType", "end")] none []]]

/-- Text held by a run whose only child is a text element. -/
def runText : Xml → Option String
  | .elem _ _ _ [.elem "w:t" _ s _] => s
  | _ => none

/-- The cached display text of a rendered REF field: the text of its
display run (the fourth of the five runs). -/
def cachedFieldDisplay (runs : List Xml) : Option String :=
  (runs[3]?).bind runText

/-- The cross-reference branch of the run loop (doc_generator.py
1169-1175): a truthy target is stripped, resolved against the bookmark
map with the not-found fallback string, and written as a complete
field. -/
def renderCrossRef (bookmarkMap : List (String × String)) (target : Option String) :
    List Xml :=
  match target with
  | none => []
  | some tb =>
      if tb = "" then []
      else
        let clean := pyStrip tb
        let display := (bookmarkMap.lookup clean).getD ("[引用 '" ++ clean ++ "' 未找到]")
        addCrossReferenceField clean display

/-- State threaded through the run loop of one paragraph: the
children appended to the paragraph so far, the two pending-injection
maps (insertion-ordered, as Python dicts are), and the supply of fresh
uuid hex strings. -/
structure RenderState where
  para : List Xml
  footnotes : List (String × String)
  endnotes : List (String × String)
  uuidSupply : List String
deriving Repr

/-- `p.add_run(text)`. -/
def textRun (t : String) : Xml :=
  .elem "w:r" [] none [.elem "w:t" [] (some t) []]

/-- The visible error run emitted when a formula fails to compile
(doc_generator.py 1157): red text naming the failed markup. -/
def errorRun (latexText : String) : Xml :=
  .elem "w:r" [] none
    [.elem "w:rPr" [] none [.elem "w:color" [("w:val", "FF0000")] none []],
     .elem "w:t" [] (some ("[公式渲染失败: " ++ latexText ++ "]")) []]

mutual

/-- `find('.//m:oMath')`: first descendant with the math tag, document
order. -/
def findOMathX : Xml → Option Xml
  | .elem _ _ _ cs => findOMathL cs

def findOMathL : List Xml → Option Xml
  | [] => none
  | c :: rest =>
      if c.tagOf = "m:oMath" then some c
      else
        match findOMathX c with
        | some m => some m
        | none => findOMathL rest

end

/-- One iteration of the run-dispatch loop of `create_document`
(doc_generator.py 1143-1175).  Formula runs are compiled and appended
inline at once (the compiled `m:oMath` child of the returned
`m:oMathPara`, or a red error run when the compile returns `None`);
footnote and endnote runs emit a fresh opaque placeholder run and
record the pending injection; cross-reference runs are resolved
immediately against the bookmark map. -/
def renderRunItem (bookmarkMap : List (String × String)) (st : RenderState)
    (item : RunItem) : RenderState :=
  if item.typ = "text" then
    { st with para := st.para ++ [textRun item.text] }
  else if item.typ = "formula" then
    if item.text = "" then st
    else
      match latexToOmml item.text "center" with
      | some om =>
          match findOMathX om with
          | some m => { st with para := st.para ++ [m] }
          | none => st
      | none => { st with para := st.para ++ [errorRun item.text] }
  else if item.typ = "footnote" then
    let ph := "__FOOTNOTE_" ++ st.uuidSupply.headD "" ++ "__"
    { st with para := st.para ++ [textRun ph],
              footnotes := st.footnotes ++ [(ph, item.text)],
              uuidSupply := st.uuidSupply.tail }
  else if item.typ = "endnote" then
    let ph := "__ENDNOTE_" ++ st.uuidSupply.headD "" ++ "__"
    { st with para := st.para ++ [textRun ph],
              endnotes := st.endnotes ++ [(ph, item.text)],
              uuidSupply := st.uuidSupply.tail }
  else if item.typ = "cross_reference" then
    { st with para := st.para ++ renderCrossRef bookmarkMap item.target_bookmark }
  else st

/-! ## Custom multi-level numbering (`numbering_generator.py`) -/

/-- One `NumberingLevel` of a `NumberingDefinition`. -/
structure NumLevelIR where
  level : Nat
  number_format : String
  text_format : String
deriving Repr, DecidableEq

/-- A `NumberingDefinition` from the IR. -/
structure NumberingDefIR where
  name : String
  style_links : List (String × Nat)
  levels : List NumLevelIR
deriving Repr, DecidableEq

/-- Ids of the existing `w:abstractNum` children of the numbering root
(numbering_generator.py 28; every such element written by the source
carries a numeric id). -/
def abstractNumIds (root : Xml) : List Int :=
  root.kids.filterMap fun c =>
    if c.tagOf = "w:abstractNum" then attrInt c "w:abstractNumId" else none

/-- Ids of the existing `w:num` children (numbering_generator.py 29). -/
def numInstanceIds (root : Xml) : List Int :=
  root.kids.filterMap fun c =>
    if c.tagOf = "w:num" then attrInt c "w:numId" else none

/-- `(max(ids) if ids else 0) + 1`. -/
def nextNumberingId (ids : List Int) : Int :=
  (match ids with
   | [] => 0
   | x :: xs => xs.foldl max x) + 1

/-- One `w:lvl` element (numbering_generator.py 44-69): start 1, the
configured number format and text format, and the default hanging
indentation scaled by the level. -/
def lvlElem (lv : NumLevelIR) : Xml :=
  .elem "w:lvl" [("w:ilvl", toString lv.level)] none
    [.elem "w:start" [("w:val", "1")] none [],
     .elem "w:numFmt" [("w:val", lv.number_format)] none [],
     .elem "w:lvlText" [("w:val", lv.text_format)] none [],
     .elem "w:pPr" [] none
       [.elem "w:ind" [("w:left", toString (720 * (lv.level : Int))), ("w:hanging", "360")]
          none []]]

/-- One `w:abstractNum` element for a definition. -/
def abstractNumElem (aid : Int) (d : NumberingDefIR) : Xml :=
  .elem "w:abstractNum" [("w:abstractNumId", toString aid)] none
    (.elem "w:multiLevelType" [("w:val", "multilevel")] none [] :: d.levels.map lvlElem)

/-- One `w:num` instance pointing at its abstract definition. -/
def numElem (nid aid : Int) : Xml :=
  .elem "w:num" [("w:numId", toString nid)] none
    [.elem "w:abstractNumId" [("w:val", toString aid)] none []]

/-- `create_numbering_definitions` (numbering_generator.py 10-89):
allocates fresh abstract and instance ids strictly above the existing
ones, appends one abstract definition and one instance per
`NumberingDefinition`, and returns the name → instance-id map. -/
def createNumberingDefinitions (root : Xml) (defs : List NumberingDefIR) :
    Xml × List (String × String) :=
  if defs.isEmpty then (root, [])
  else
    let a0 := nextNumberingId (abstractNumIds root)
    let n0 := nextNumberingId (numInstanceIds root)
    let res := defs.foldl
      (fun st d =>
        let root1 := appendChild (appendChild st.1 (abstractNumElem st.2.2.1 d))
          (numElem st.2.2.2 st.2.2.1)
        (root1, dictInsert st.2.1 d.name (toString st.2.2.2), st.2.2.1 + 1, st.2.2.2 + 1))
      (root, ([] : List (String × String)), a0, n0)
    (res.1, res.2.1)

/-- The fresh `w:numPr` written into a style's paragraph properties
(numbering_generator.py 125-138; `numPr.clear()` on an existing one
leaves exactly this shape). -/
def numPrNew (level : Nat) (nid : String) : Xml :=
  .elem "w:numPr" [] none
    [.elem "w:ilvl" [("w:val", toString level)] none [],
     .elem "w:numId" [("w:val", nid)] none []]

/-- Replace the first `w:numPr` child. -/
def replaceFirstNumPr (level : Nat) (nid : String) : List Xml → List Xml
  | [] => []
  | c :: rest =>
      if c.tagOf = "w:numPr" then numPrNew level nid :: rest
      else c :: replaceFirstNumPr level nid rest

/-- Modify the first child with the given tag. -/
def modifyFirstTag (tag : String) (f : Xml → Xml) : List Xml → List Xml
  | [] => []
  | c :: rest => if c.tagOf = tag then f c :: rest else c :: modifyFirstTag tag f rest

/-- Update a style's `w:pPr`: find-or-create the `w:numPr` and point it
at the given level and instance. -/
def updPPr (level : Nat) (nid : String) : Xml → Xml
  | .elem t a s cs =>
      if cs.any (fun c => c.tagOf = "w:numPr") then
        .elem t a s (replaceFirstNumPr level nid cs)
      else .elem t a s (cs ++ [numPrNew level nid])

/-- Update a style element: find-or-create its `w:pPr` and update that
(numbering_generator.py 116-138). -/
def updStyle (level : Nat) (nid : String) : Xml → Xml
  | .elem t a s cs =>
      if cs.any (fun c => c.tagOf = "w:pPr") then
        .elem t a s (modifyFirstTag "w:pPr" (updPPr level nid) cs)
      else .elem t a s (cs ++ [.elem "w:pPr" [] none [numPrNew level nid]])

mutual

/-- Apply `f` to the first node (document order, descendants included)
satisfying `p`; the Bool reports whether a node was found. -/
def updateFirstX (p : Xml → Bool) (f : Xml → Xml) : Xml → Xml × Bool
  | .elem t a s cs =>
      if p (.elem t a s cs) then (f (.elem t a s cs), true)
      else
        let r := updateFirstL p f cs
        (.elem t a s r.1, r.2)

def updateFirstL (p : Xml → Bool) (f : Xml → Xml) : List Xml → List Xml × Bool
  | [] => ([], false)
  | c :: rest =>
      match updateFirstX p f c with
      | (c1, true) => (c1 :: rest, true)
      | (_, false) =>
          let r := updateFirstL p f rest
          (c :: r.1, r.2)

end

/-- The per-definition body of `link_styles_to_numbering`
(numbering_generator.py 104-140): a missing or falsy instance id skips
the definition; each linked style name has its spaces removed to form
the style id, and the first matching `w:style` is updated in place — a
style id not found leaves the part untouched (warning only). -/
def linkOneDefinition (map : List (String × String)) (stylesRoot : Xml)
    (d : NumberingDefIR) : Xml :=
  match map.lookup d.name with
  | none => stylesRoot
  | some nid =>
      if nid = "" then stylesRoot
      else
        d.style_links.foldl
          (fun root sl =>
            let styleId := pyReplace sl.1 " " ""
            (updateFirstX
              (fun x => x.tagOf == "w:style" && x.attr "w:styleId" == some styleId)
              (updStyle sl.2 nid) root).1)
          stylesRoot

/-- `link_styles_to_numbering` over all definitions. -/
def linkStylesToNumbering (stylesRoot : Xml) (defs : List NumberingDefIR)
    (map : List (String × String)) : Xml :=
  defs.foldl (linkOneDefinition map) stylesRoot

/-- The XML core of `post_process_numbering` (doc_generator.py
1011-1064): create the definitions in the numbering part, then link
the styles in the styles part. -/
def post_process_numbering_core (numberingRoot stylesRoot : Xml)
    (defs : List NumberingDefIR) : Xml × Xml :=
  let created := createNumberingDefinitions numberingRoot defs
  (created.1, linkStylesToNumbering stylesRoot defs created.2)

end AWE

namespace AWE

/-! ## Concrete documents used by the theorems -/

/-- A one-paragraph document whose single run holds exactly the
footnote placeholder produced in Phase 1. -/
def c1Doc : Xml :=
  .elem "w:document" [] none
    [.elem "w:body" [] none
      [.elem "w:p" [] none
        [.elem "w:r" [] none [.elem "w:t" [] (some "__FOOTNOTE_c1__") []]]]]

/-- The expected main document part after footnote resolution of
`c1Doc`: the placeholder run replaced by the three-run reference-mark
sequence. -/
def c1DocExpected : Xml :=
  .elem "w:document" [] none
    [.elem "w:body" [] none
      [.elem "w:p" [] none
        [fnStyledRun (some "["), fnRefRun 1, fnStyledRun (some "]")]]]

/-- A document that contains no placeholder at all. -/
def noPhDoc : Xml :=
  .elem "w:document" [] none
    [.elem "w:body" [] none
      [.elem "w:p" [] none [.elem "w:r" [] none [.elem "w:t" [] (some "hello") []]]]]

/-- The placeholder run emitted by Phase 1 (`p.add_run(placeholder)`):
a run holding the placeholder as its only text. -/
def phRun (ph : String) : Xml :=
  .elem "w:r" [] none [.elem "w:t" [] (some ph) []]

/-- A document whose body holds one paragraph with the given runs. -/
def wrapParaDoc (runs : List Xml) : Xml :=
  .elem "w:document" [] none
    [.elem "w:body" [] none [.elem "w:p" [] none runs]]

/-- Serialized main document part containing one paragraph whose only
run is bold (`w:b` in its run properties) and holds exactly the endnote
placeholder as text — the situation the tree-surgery wording of the
spec describes. -/
def c3DocStr : String :=
  "<w:document><w:body><w:p><w:r><w:rPr><w:b /></w:rPr>" ++
    "<w:t>__ENDNOTE_c3__</w:t></w:r></w:p></w:body></w:document>"

/-- A render state with an untouched uuid supply and empty pending
maps, for the formula-run theorems. -/
def c2St0 : RenderState := ⟨[], [], [], ["u1", "u2"]⟩

/-- The compiled `m:oMath` element the renderer splices inline for the
formula run `x`. -/
def c2OMathX : Xml := .elem "m:oMath" [] none [mkRunOmml "x" false]

/-- A section with one bookmarked paragraph, for the cross-reference
witness. -/
def c6Elements : List ElementIR :=
  [⟨"paragraph", "Intro", [], some ⟨some "sec1"⟩⟩]

/-- A numbering part that already holds an abstract definition with id
5 and an instance with id 3. -/
def c7NumberingRoot : Xml :=
  .elem "w:numbering" [] none
    [.elem "w:abstractNum" [("w:abstractNumId", "5")] none [],
     .elem "w:num" [("w:numId", "3")] none
       [.elem "w:abstractNumId" [("w:val", "5")] none []]]

/-- A styles part holding the Heading 1 style (style id without the
space, as the styles part writes it), with no paragraph properties
yet. -/
def c7StylesRoot : Xml :=
  .elem "w:styles" [] none
    [.elem "w:style" [("w:type", "paragraph"), ("w:styleId", "Heading1")] none
       [.elem "w:name" [("w:val", "heading 1")] none []]]

/-- The `NumberingDefinition` of the spec's numbering scenario:
"Heading 1" linked at level 0, format decimal, text-format "%1.". -/
def c7Def : NumberingDefIR :=
  ⟨"HeadingNumbering", [("Heading 1", 0)], [⟨0, "decimal", "%1."⟩]⟩

/-! ## Helper lemmas about the parser state -/

theorem currentTok_isLt (toks : List String) (pos : Nat) (x : String)
    (h : currentTok toks pos = some x) : pos < toks.length := by
  by_contra hge
  have : currentTok toks pos = none := by
    simp [currentTok, List.getElem?_eq_none (Nat.le_of_not_lt hge)]
  rw [this] at h
  exact Option.noConfusion h

theorem pyTruthy_some (l : List Xml) (h : l ≠ []) : pyTruthy (some l) = true := by
  cases l with
  | nil => exact absurd rfl h
  | cons a rest => rfl

/-! ## Helper lemmas about the bookmark map -/

theorem lookup_dictInsert_eq (m : List (String × String)) (k v : String) :
    (dictInsert m k v).lookup k = some v := by
  induction m with
  | nil => simp [dictInsert, List.lookup]
  | cons p rest ih =>
    by_cases hk : p.1 = k
    · simp [dictInsert, hk, List.lookup]
    · have hbk : (k == p.1) = false := by
        simp only [beq_eq_false_iff_ne, ne_eq]
        exact fun hkk => hk hkk.symm
      simp [dictInsert, hk, List.lookup, hbk, ih]

theorem lookup_dictInsert_ne (m : List (String × String)) (k k' v : String)
    (h : k' ≠ k) : (dictInsert m k v).lookup k' = m.lookup k' := by
  induction m with
  | nil =>
    have hbk : (k' == k) = false := by simp [h]
    simp [dictInsert, List.lookup, hbk]
  | cons p rest ih =>
    by_cases hk : p.1 = k
    · have hbk : (k' == k) = false := by simp [h]
      simp [dictInsert, hk, List.lookup, hbk]
    · cases hb : (k' == p.1) <;> simp [dictInsert, hk, List.lookup, hb, ih]

theorem scan_aux (elements : List ElementIR) (acc : List (String × String))
    (k v : String)
    (h : (elements.foldl scanStep acc).lookup k = some v) :
    (∃ el ∈ elements, el.typ = "paragraph" ∧ bookmarkIdOf el = some k ∧
        flattenedText el = v) ∨
      acc.lookup k = some v := by
  induction elements generalizing acc with
  | nil => exact Or.inr h
  | cons el rest ih =>
    rw [List.foldl_cons] at h
    rcases ih (scanStep acc el) h with hfound | hacc
    · obtain ⟨el1, hmem, hp⟩ := hfound
      exact Or.inl ⟨el1, List.mem_cons_of_mem _ hmem, hp⟩
    · by_cases hpar : el.typ = "paragraph"
      · cases hb : bookmarkIdOf el with
        | none => rw [scanStep, if_pos hpar, hb] at hacc; exact Or.inr hacc
        | some b =>
          rw [scanStep, if_pos hpar, hb] at hacc
          by_cases hbk : b = k
          · subst hbk
            rw [lookup_dictInsert_eq] at hacc
            exact Or.inl ⟨el, List.mem_cons_self _ _, hpar, hb, Option.some.inj hacc⟩
          · rw [lookup_dictInsert_ne _ _ _ _ (fun hk => hbk hk.symm)] at hacc
            exact Or.inr hacc
      · rw [scanStep, if_neg hpar] at hacc
        exact Or.inr hacc

theorem scan_mem (elements : List ElementIR) (k v : String)
    (h : (scanBookmarks elements).lookup k = some v) :
    ∃ el ∈ elements, el.typ = "paragraph" ∧ bookmarkIdOf el = some k ∧
      flattenedText el = v := by
  rcases scan_aux elements [] k v h with hfound | hacc
  · exact hfound
  · simp [List.lookup] at hacc

/-! ## Helper lemmas about the matrix-environment loop

One fuel step of `_parse_matrix_environment` for each of its three
separator outcomes: a column separator extends the current row, a row
separator closes it, the matching end token closes the environment. -/

theorem pMatrix_step_amp (f : Nat) (toks : List String) (pos : Nat) (env : String)
    (rows : List (List (List Xml))) (currentRow : List (List Xml))
    (t1 : String) (cell : List Xml) (pa : Nat)
    (hcur : currentTok toks pos = some t1)
    (hne : t1 ≠ "\\end" ++ lbrace ++ env ++ rbrace)
    (hcell : parseTokens f toks pos ["&", "\\\\", "\\end" ++ lbrace ++ env ++ rbrace]
      = .ok (cell, pa))
    (hamp : currentTok toks pa = some "&") :
    parseMatrixEnv (f + 1) toks pos env rows currentRow
      = parseMatrixEnv f toks (pa + 1) env rows (currentRow ++ [cell]) := by
  simp only [parseTokens] at hcell
  simp only [parseMatrixEnv]
  simp [parserCore, hcur, hne, hcell, hamp]

theorem pMatrix_step_row (f : Nat) (toks : List String) (pos : Nat) (env : String)
    (rows : List (List (List Xml))) (currentRow : List (List Xml))
    (t1 : String) (cell : List Xml) (pa : Nat)
    (hcur : currentTok toks pos = some t1)
    (hne : t1 ≠ "\\end" ++ lbrace ++ env ++ rbrace)
    (hcell : parseTokens f toks pos ["&", "\\\\", "\\end" ++ lbrace ++ env ++ rbrace]
      = .ok (cell, pa))
    (hrow : currentTok toks pa = some "\\\\") :
    parseMatrixEnv (f + 1) toks pos env rows currentRow
      = parseMatrixEnv f toks (pa + 1) env (rows ++ [currentRow ++ [cell]]) [] := by
  simp only [parseTokens] at hcell
  simp only [parseMatrixEnv]
  simp [parserCore, hcur, hne, hcell, hrow]

theorem pMatrix_step_end (f : Nat) (toks : List String) (pos : Nat) (env : String)
    (rows : List (List (List Xml))) (currentRow : List (List Xml))
    (t1 : String) (cell : List Xml) (pa : Nat)
    (hcur : currentTok toks pos = some t1)
    (hne : t1 ≠ "\\end" ++ lbrace ++ env ++ rbrace)
    (hcell : parseTokens f toks pos ["&", "\\\\", "\\end" ++ lbrace ++ env ++ rbrace]
      = .ok (cell, pa))
    (hend : currentTok toks pa = some ("\\end" ++ lbrace ++ env ++ rbrace))
    (hs1 : "\\end" ++ lbrace ++ env ++ rbrace ≠ "&")
    (hs2 : "\\end" ++ lbrace ++ env ++ rbrace ≠ "\\\\") :
    parseMatrixEnv (f + 1) toks pos env rows currentRow
      = .ok (rows ++ [currentRow ++ [cell]], pa + 1) := by
  simp only [parseTokens] at hcell
  simp only [parseMatrixEnv]
  simp [parserCore, hcur, hne, hcell, hend, hs1, hs2]

/-! ## Helper lemmas about the placeholder search and the splice -/

theorem findTL_cons (ph : String) (i : Nat) (c : Xml) (rest : List Xml) :
    findTL ph i (c :: rest) =
      match findT ph c with
      | some p => some (i :: p)
      | none => findTL ph (i + 1) rest := rfl

theorem findTL_append (ph : String) (l1 l2 : List Xml) (i : Nat)
    (h : findTL ph i l1 = none) :
    findTL ph i (l1 ++ l2) = findTL ph (i + l1.length) l2 := by
  induction l1 generalizing i with
  | nil => simp [findTL]
  | cons c rest ih =>
    cases hc : findT ph c with
    | some p =>
      exfalso
      have hcc : findTL ph i (c :: rest) = some (i :: p) := by
        rw [findTL_cons, hc]
      rw [hcc] at h
      exact Option.noConfusion h
    | none =>
      have h1 : findTL ph (i + 1) rest = none := by
        have h2 := h
        rw [findTL_cons, hc] at h2
        exact h2
      have hstep : findTL ph i ((c :: rest) ++ l2) = findTL ph (i + 1) (rest ++ l2) := by
        rw [List.cons_append, findTL_cons, hc]
      rw [hstep, ih _ h1]
      congr 1
      simp only [List.length_cons]
      omega

theorem drop_len_succ_append (l1 l2 : List Xml) (x : Xml) :
    (l1 ++ x :: l2).drop (l1.length + 1) = l2 := by
  induction l1 with
  | nil => simp
  | cons a rest ih => simp [ih]

theorem spliceAt_append (l1 l2 new : List Xml) (x : Xml) :
    spliceAt l1.length new (l1 ++ x :: l2) = l1 ++ new ++ l2 := by
  unfold spliceAt
  rw [List.take_left, drop_len_succ_append]

end AWE

namespace AWE

/-- Claim C1: with reference-format template "[#]", one pending footnote
with text "see appendix" and no pre-existing footnotes part, footnote
resolution allocates numeric id 1, creates the footnotes part holding
the two mandatory separator entries (ids -1 and 0) plus the one new
note, and replaces the placeholder run in the main document part with
exactly three runs: a superscript run "[", the run carrying the
`w:footnoteReference` construct, and a superscript run "]". -/
theorem C1_footnote_scenario :
    AWE.post_process_footnotes AWE.c1Doc none
        [("__FOOTNOTE_c1__", "see appendix")] "[#]" =
      (AWE.c1DocExpected,
       some (AWE.appendChild AWE.emptyFootnotesRoot
         (AWE.footnoteEntry 1 "see appendix"))) := by
  rfl

/-- Claim C10: when a pending footnote's placeholder occurs nowhere in
the main document part (the xpath search finds no matching `w:t`),
`post_process_footnotes` still appends the freshly built footnote entry
(with its newly allocated id 1) to the footnotes part, while the
document part is returned unchanged: the error branch does not leave
the package state unchanged. -/
theorem C10_miss_still_appends_entry (doc : Xml) (ph note fmt : String)
    (h : AWE.findT ph doc = none) :
    AWE.post_process_footnotes doc none [(ph, note)] fmt =
      (doc, some (AWE.appendChild AWE.emptyFootnotesRoot (AWE.footnoteEntry 1 note))) := by
  simp [AWE.post_process_footnotes, AWE.fnInjectStep, h]
  rfl

/-- Witness for C10 at a concrete document that does not contain the
placeholder. -/
theorem C10_witness :
    AWE.findT "__FOOTNOTE_missing__" AWE.noPhDoc = none ∧
      AWE.post_process_footnotes AWE.noPhDoc none
          [("__FOOTNOTE_missing__", "orphan note")] "[#]" =
        (AWE.noPhDoc,
         some (AWE.appendChild AWE.emptyFootnotesRoot
           (AWE.footnoteEntry 1 "orphan note"))) :=
  ⟨rfl, C10_miss_still_appends_entry AWE.noPhDoc "__FOOTNOTE_missing__" "orphan note" "[#]" rfl⟩

set_option maxRecDepth 40000 in
/-- Claim C3 counterexample: for an endnote placeholder held by a bold
run, the claimed tree surgery (insert the new runs before the
placeholder run, then remove that run) would delete the placeholder run
together with its `w:rPr` bold marker.  The code instead performs raw
substring substitution on the serialized document: the placeholder run
and its properties survive, and the serialized reference runs end up
nested INSIDE the original run's `w:t` element, so the claim is false
for endnotes. -/
theorem C3_counterexample :
    strContains
        (post_process_endnotes c3DocStr none [("__ENDNOTE_c3__", "a note")] "[#]").1
        "<w:rPr><w:b /></w:rPr><w:t><w:r xmlns:w=" = true ∧
      strContains
        (post_process_endnotes c3DocStr none [("__ENDNOTE_c3__", "a note")] "[#]").1
        "__ENDNOTE_c3__" = false := by
  constructor <;> rfl

/-- Claim C3 (amended): only FOOTNOTE placeholders are replaced by tree
surgery — the single run whose text equals the placeholder is replaced
in place by the new reference-run sequence, the other runs of the
containing paragraph unchanged.  Endnote placeholders are instead
resolved by plain substring substitution of the serialized reference
runs for every occurrence of the placeholder text in the raw document
XML string (so the new runs are spliced into the serialized text of the
placeholder run rather than replacing that run as a node). -/
theorem C3_amended_replacement (ph note fmt docStr : String) (rs1 rs2 : List Xml)
    (h1 : findTL ph 0 rs1 = none)
    (h2 : strContains docStr ph = true) :
    post_process_footnotes (wrapParaDoc (rs1 ++ phRun ph :: rs2)) none [(ph, note)] fmt
        = (wrapParaDoc (rs1 ++ fnNewRuns fmt 1 ++ rs2),
           some (appendChild emptyFootnotesRoot (footnoteEntry 1 note)))
      ∧ post_process_endnotes docStr none [(ph, note)] fmt
        = (pyReplace docStr ph (enCombinedXml fmt 1),
           some (appendChild emptyEndnotesRoot (endnoteEntry 1 note))) := by
  constructor
  · have hfind : findT ph (wrapParaDoc (rs1 ++ phRun ph :: rs2))
        = some [0, 0, rs1.length, 0] := by
      simp only [wrapParaDoc, findT, findTL]
      rw [findTL_append ph rs1 _ 0 h1]
      simp [findT, findTL, phRun]
    simp only [post_process_footnotes, fnInjectStep, hfind, List.foldl,
      List.isEmpty_cons, Bool.false_eq_true, if_false, Option.getD_none]
    have hrepl : replaceRunAt (fnNewRuns fmt (nextNoteId (footnoteIdsAbove0 emptyFootnotesRoot)))
        (List.dropLast [0, 0, rs1.length, 0])
        (wrapParaDoc (rs1 ++ phRun ph :: rs2))
        = wrapParaDoc (rs1 ++ fnNewRuns fmt 1 ++ rs2) := by
      show replaceRunAt (fnNewRuns fmt 1) [0, 0, rs1.length]
          (wrapParaDoc (rs1 ++ phRun ph :: rs2))
          = wrapParaDoc (rs1 ++ fnNewRuns fmt 1 ++ rs2)
      simp only [wrapParaDoc, replaceRunAt, listModify]
      rw [spliceAt_append]
    rw [hrepl]
    rfl
  · simp only [post_process_endnotes, enInjectStep, h2, List.foldl,
      List.isEmpty_cons, Bool.false_eq_true, if_false, if_true, Option.getD_none]
    rfl

/-- Witness for the amended C3 at a concrete paragraph with a
neighbouring run on each side of the placeholder and a concrete
document string for the endnote side. -/
theorem C3_amended_witness :
    findTL "__NOTE_c3w__" 0 [phRun "other"] = none ∧
      strContains "<w:t>__NOTE_c3w__</w:t>" "__NOTE_c3w__" = true ∧
      post_process_footnotes
          (wrapParaDoc ([phRun "other"] ++ phRun "__NOTE_c3w__" :: [phRun "tail"]))
          none [("__NOTE_c3w__", "n")] "[#]"
        = (wrapParaDoc ([phRun "other"] ++ fnNewRuns "[#]" 1 ++ [phRun "tail"]),
           some (appendChild emptyFootnotesRoot (footnoteEntry 1 "n"))) := by
  refine ⟨rfl, rfl, ?_⟩
  exact (C3_amended_replacement "__NOTE_c3w__" "n" "[#]" "<w:t>__NOTE_c3w__</w:t>"
    [phRun "other"] [phRun "tail"] rfl rfl).1

/-- Claim C4: the two scripts of a base may come in either order —
`base ^ sup _ sub` and `base _ sub ^ sup` both produce the combined
`m:sSubSup` node with identical base, subscript and superscript
children.  `tA` is a token stream starting with the superscript-first
spelling, `tB` one starting with the subscript-first spelling; the
hypotheses pin the argument parses (each script argument parses to the
same elements in either stream) and require both scripts non-empty. -/
theorem C4_script_order_independent (f : Nat) (tA tB : List String)
    (base esub esup : List Xml) (p1 p2 q1 q2 : Nat)
    (hA0 : currentTok tA 0 = some "^")
    (hA1 : parseArgument f tA 1 = .ok (esup, p1))
    (hA2 : currentTok tA p1 = some "_")
    (hA3 : parseArgument f tA (p1 + 1) = .ok (esub, p2))
    (hB0 : currentTok tB 0 = some "_")
    (hB1 : parseArgument f tB 1 = .ok (esub, q1))
    (hB2 : currentTok tB q1 = some "^")
    (hB3 : parseArgument f tB (q1 + 1) = .ok (esup, q2))
    (hsub : esub ≠ []) (hsup : esup ≠ []) :
    handleScripts (f + 1) tA 0 base = .ok (mkSubSup base esub esup, p2) ∧
      handleScripts (f + 1) tB 0 base = .ok (mkSubSup base esub esup, q2) := by
  have hA0lt : 0 < tA.length := currentTok_isLt _ _ _ hA0
  have hA2lt : p1 < tA.length := currentTok_isLt _ _ _ hA2
  have hB0lt : 0 < tB.length := currentTok_isLt _ _ _ hB0
  have hB2lt : q1 < tB.length := currentTok_isLt _ _ _ hB2
  simp only [parseArgument] at hA1 hA3 hB1 hB3
  constructor
  · simp [handleScripts, parserCore, advPos, hA0, hA0lt, hA1, hA2, hA2lt, hA3,
      mkScripts, pyTruthy_some _ hsub, pyTruthy_some _ hsup]
  · simp [handleScripts, parserCore, advPos, hB0, hB0lt, hB1, hB2, hB2lt, hB3,
      mkScripts, pyTruthy_some _ hsub, pyTruthy_some _ hsup]

/-- Witness for C4: `x^2_0` and `x_0^2` (token streams after the base
`x`) both compile to the combined node with base `x`, subscript `0`,
superscript `2`. -/
theorem C4_witness :
    handleScripts 11 ["^", "2", "_", "0"] 0 [mkRunOmml "x" false]
        = .ok (mkSubSup [mkRunOmml "x" false] [mkRunOmml "0" false] [mkRunOmml "2" false], 4) ∧
      handleScripts 11 ["_", "0", "^", "2"] 0 [mkRunOmml "x" false]
        = .ok (mkSubSup [mkRunOmml "x" false] [mkRunOmml "0" false] [mkRunOmml "2" false], 4) :=
  C4_script_order_independent 10 ["^", "2", "_", "0"] ["_", "0", "^", "2"]
    [mkRunOmml "x" false] [mkRunOmml "0" false] [mkRunOmml "2" false] 2 4 2 4
    (by rfl) (by rfl) (by rfl) (by rfl) (by rfl) (by rfl) (by rfl) (by rfl)
    (by simp) (by simp)

/-- Claim C5: a 2×2 matrix environment — four cells separated by the
column separator `&` and one row separator, closed by the matching end
token — compiles to a matrix node of exactly 2 rows of 2 cells each,
wrapped in the delimiter pair `( )` for pmatrix, `[ ]` for bmatrix and
`| |` for vmatrix.  The hypotheses pin the four cell parses (at the
descending fuel levels the loop hands them) and the separator tokens
between them; `t1 … t4` are the tokens opening each cell. -/
theorem C5_matrix_2x2 (f : Nat) (toks : List String)
    (envName openC closeC t1 t2 t3 t4 : String)
    (ea eb ec ed : List Xml) (pa pb pc pd : Nat)
    (henv : (envName, openC, closeC) ∈
      [("pmatrix", "(", ")"), ("bmatrix", "[", "]"), ("vmatrix", "|", "|")])
    (h0 : currentTok toks 0 = some ("\\begin" ++ lbrace ++ envName ++ rbrace))
    (hs1 : currentTok toks 1 = some t1)
    (hne1 : t1 ≠ "\\end" ++ lbrace ++ envName ++ rbrace)
    (ha : parseTokens (f + 3) toks 1 ["&", "\\\\", "\\end" ++ lbrace ++ envName ++ rbrace]
      = .ok (ea, pa))
    (hamp1 : currentTok toks pa = some "&")
    (hs2 : currentTok toks (pa + 1) = some t2)
    (hne2 : t2 ≠ "\\end" ++ lbrace ++ envName ++ rbrace)
    (hb : parseTokens (f + 2) toks (pa + 1) ["&", "\\\\", "\\end" ++ lbrace ++ envName ++ rbrace]
      = .ok (eb, pb))
    (hrow : currentTok toks pb = some "\\\\")
    (hs3 : currentTok toks (pb + 1) = some t3)
    (hne3 : t3 ≠ "\\end" ++ lbrace ++ envName ++ rbrace)
    (hc : parseTokens (f + 1) toks (pb + 1) ["&", "\\\\", "\\end" ++ lbrace ++ envName ++ rbrace]
      = .ok (ec, pc))
    (hamp2 : currentTok toks pc = some "&")
    (hs4 : currentTok toks (pc + 1) = some t4)
    (hne4 : t4 ≠ "\\end" ++ lbrace ++ envName ++ rbrace)
    (hd : parseTokens f toks (pc + 1) ["&", "\\\\", "\\end" ++ lbrace ++ envName ++ rbrace]
      = .ok (ed, pd))
    (hend : currentTok toks pd = some ("\\end" ++ lbrace ++ envName ++ rbrace)) :
    parseSingleElement (f + 5) toks 0
      = .ok ([mkDelim openC closeC [mkMatrix [[ea, eb], [ec, ed]]]], pd + 1) := by
  have hstopA : "\\end" ++ lbrace ++ envName ++ rbrace ≠ "&" := by
    fin_cases henv <;> decide
  have hstopR : "\\end" ++ lbrace ++ envName ++ rbrace ≠ "\\\\" := by
    fin_cases henv <;> decide
  have hchain : parseMatrixEnv (f + 4) toks 1 envName [] []
      = .ok ([[ea, eb], [ec, ed]], pd + 1) := by
    rw [show f + 4 = (f + 3) + 1 from rfl,
      pMatrix_step_amp (f + 3) toks 1 envName [] [] t1 ea pa hs1 hne1 ha hamp1]
    simp only [List.nil_append]
    rw [show f + 3 = (f + 2) + 1 from rfl,
      pMatrix_step_row (f + 2) toks (pa + 1) envName [] [ea] t2 eb pb hs2 hne2 hb hrow]
    simp only [List.nil_append, List.singleton_append]
    rw [show f + 2 = (f + 1) + 1 from rfl,
      pMatrix_step_amp (f + 1) toks (pb + 1) envName [[ea, eb]] [] t3 ec pc hs3 hne3 hc hamp2]
    simp only [List.nil_append]
    rw [pMatrix_step_end f toks (pc + 1) envName [[ea, eb]] [ec] t4 ed pd
      hs4 hne4 hd hend hstopA hstopR]
    simp
  simp only [parseSingleElement]
  rw [show f + 5 = (f + 4) + 1 from rfl]
  simp only [parseMatrixEnv] at hchain
  generalize hg : f + 4 = g at hchain ⊢
  fin_cases henv
  · have htok : ("\\begin" ++ lbrace ++ "pmatrix" ++ rbrace) = "\\begin\x7bpmatrix\x7d" := rfl
    rw [htok] at h0
    have e1 : symbolMap.lookup "\\begin\x7bpmatrix\x7d" = none := by rfl
    have e2 : "\\begin\x7bpmatrix\x7d" ∉ knownFunctions := by decide
    have e5 : naryOperators.lookup "\\begin\x7bpmatrix\x7d" = none := by rfl
    have e6 : matchBeginEnv "\\begin\x7bpmatrix\x7d" = some "pmatrix" := by rfl
    simp [parserCore, h0, hchain, e1, e2, e5, e6, pyStartsWith]
    rfl
  · have htok : ("\\begin" ++ lbrace ++ "bmatrix" ++ rbrace) = "\\begin\x7bbmatrix\x7d" := rfl
    rw [htok] at h0
    have e1 : symbolMap.lookup "\\begin\x7bbmatrix\x7d" = none := by rfl
    have e2 : "\\begin\x7bbmatrix\x7d" ∉ knownFunctions := by decide
    have e5 : naryOperators.lookup "\\begin\x7bbmatrix\x7d" = none := by rfl
    have e6 : matchBeginEnv "\\begin\x7bbmatrix\x7d" = some "bmatrix" := by rfl
    simp [parserCore, h0, hchain, e1, e2, e5, e6, pyStartsWith]
    rfl
  · have htok : ("\\begin" ++ lbrace ++ "vmatrix" ++ rbrace) = "\\begin\x7bvmatrix\x7d" := rfl
    rw [htok] at h0
    have e1 : symbolMap.lookup "\\begin\x7bvmatrix\x7d" = none := by rfl
    have e2 : "\\begin\x7bvmatrix\x7d" ∉ knownFunctions := by decide
    have e5 : naryOperators.lookup "\\begin\x7bvmatrix\x7d" = none := by rfl
    have e6 : matchBeginEnv "\\begin\x7bvmatrix\x7d" = some "vmatrix" := by rfl
    simp [parserCore, h0, hchain, e1, e2, e5, e6, pyStartsWith]
    rfl

/-- Witness for C5: the pmatrix environment over cells `a b c d`. -/
theorem C5_witness :
    parseSingleElement 10
        ["\\begin\x7bpmatrix\x7d", "a", "&", "b", "\\\\", "c", "&", "d",
         "\\end\x7bpmatrix\x7d"] 0
      = .ok ([mkDelim "(" ")"
          [mkMatrix [[[mkRunOmml "a" false], [mkRunOmml "b" false]],
                     [[mkRunOmml "c" false], [mkRunOmml "d" false]]]]], 9) :=
  C5_matrix_2x2 5
    ["\\begin\x7bpmatrix\x7d", "a", "&", "b", "\\\\", "c", "&", "d", "\\end\x7bpmatrix\x7d"]
    "pmatrix" "(" ")" "a" "b" "c" "d"
    [mkRunOmml "a" false] [mkRunOmml "b" false] [mkRunOmml "c" false] [mkRunOmml "d" false]
    2 4 6 8
    (by decide) (by rfl) (by rfl) (by decide) (by rfl) (by rfl) (by rfl)
    (by decide) (by rfl) (by rfl) (by rfl) (by decide) (by rfl) (by rfl)
    (by rfl) (by decide) (by rfl) (by rfl)

/-- Claim C8: a backslash command that is in none of the dispatch
tables degrades to a literal text run carrying the raw command name,
and the surrounding token loop keeps compiling the remaining tokens —
the compile does not abort. -/
theorem C8_unknown_command_degrades (f : Nat) (toks stops : List String)
    (pos : Nat) (t : String) (els : List Xml) (pEnd : Nat)
    (ht : currentTok toks pos = some t)
    (h1 : pyStartsWith t "\\" = true)
    (h2 : symbolMap.lookup t = none)
    (h3 : t ∉ knownFunctions)
    (h4 : pyStartsWith t "\\operatorname" = false)
    (h5 : t ≠ "\\lim") (h6 : t ≠ "\\frac") (h7 : t ≠ "\\sqrt")
    (h8 : t ≠ "\\hat") (h9 : t ≠ "\\vec") (h10 : t ≠ "\\dot")
    (h11 : t ≠ "\\mathbf") (h12 : t ≠ "\\mathcal") (h13 : t ≠ "\\text")
    (h14 : naryOperators.lookup t = none)
    (h15 : t ≠ "\\left")
    (h16 : matchBeginEnv t = none)
    (h17 : t ≠ "\\\\")
    (h18 : t ∉ stops)
    (h19 : currentTok toks (pos + 1) ≠ some "^")
    (h20 : currentTok toks (pos + 1) ≠ some "_")
    (h21 : parseTokens (f + 1) toks (pos + 1) stops = .ok (els, pEnd)) :
    parseSingleElement (f + 1) toks pos = .ok ([mkRunOmml t false], pos + 1) ∧
      parseTokens (f + 2) toks pos stops = .ok (mkRunOmml t false :: els, pEnd) := by
  have hpse : parseSingleElement (f + 1) toks pos = .ok ([mkRunOmml t false], pos + 1) := by
    simp [parseSingleElement, parserCore, ht, h1, h2, h3, h4, h5, h6, h7, h8, h9, h10,
      h11, h12, h13, h14, h15, h16, h17]
  refine ⟨hpse, ?_⟩
  simp only [parseSingleElement] at hpse
  simp only [parseTokens] at h21 ⊢
  rw [show f + 2 = (f + 1) + 1 from rfl]
  generalize hg : f + 1 = g at hpse h21 ⊢
  simp [parserCore, ht, h18, hpse, h19, h20, h21]

/-- Witness for C8: the unknown command token `\foo` followed by `x`. -/
theorem C8_witness :
    parseSingleElement 6 ["\\foo", "x"] 0 = .ok ([mkRunOmml "\\foo" false], 1) ∧
      parseTokens 7 ["\\foo", "x"] 0 [] = .ok ([mkRunOmml "\\foo" false, mkRunOmml "x" false], 2) :=
  C8_unknown_command_degrades 5 ["\\foo", "x"] [] 0 "\\foo"
    [mkRunOmml "x" false] 2 (by rfl) (by rfl) (by rfl) (by decide) (by rfl)
    (by decide) (by decide) (by decide) (by decide) (by decide) (by decide)
    (by decide) (by decide) (by decide) (by rfl) (by decide) (by rfl) (by decide)
    (by decide) (by decide) (by decide) (by rfl)

/-- Claim C9: the compile entry point never lets an exception escape:
for every input string it returns either a compiled fragment or the
contained failure value `none` (the catch-all handler of
`latex_to_omml`), and at the spec's fuzz input — math markup with an
unbalanced open brace — it returns a degraded but well-formed fragment
rather than failing. -/
theorem C9_malformed_contained :
    (∀ s alignment : String,
        latexToOmml s alignment = none ∨ ∃ x, latexToOmml s alignment = some x) ∧
      latexToOmml "x^\x7b2" "center" =
        some (oMathParaFor "center"
          [mkSup [mkRunOmml "x" false] [mkRunOmml "2" false]]) := by
  constructor
  · intro s alignment
    cases h : latexToOmml s alignment with
    | none => exact Or.inl rfl
    | some x => exact Or.inr ⟨x, rfl⟩
  · rfl

/-- Claim C2 counterexample: rendering a paragraph containing the
Formula run `x` does NOT emit an opaque placeholder token nor record a
pending-formula mapping — `create_document` has no pending-formula map
at all.  The compiled `m:oMath` element is appended inline at once;
both pending-injection maps stay empty and the fresh-id supply is
untouched (no placeholder id was generated), and the appended node is a
math element, not a text run carrying a placeholder. -/
theorem C2_counterexample :
    renderRunItem [] c2St0 ⟨"formula", "x", none⟩
        = ⟨[c2OMathX], [], [], ["u1", "u2"]⟩ ∧
      runText c2OMathX = none := by
  constructor <;> rfl

/-- Claim C2 (amended): for every Formula run, Phase 1 compiles the
math markup immediately and appends the result inline — the `m:oMath`
element found inside the compiled fragment, or a visible red error run
when the compile fails, or nothing when the markup is empty or the
fragment holds no math element — and records nothing in the pending
footnote/endnote maps and consumes no placeholder id.  (Only Footnote
and Endnote runs are placeholder-based.) -/
theorem C2_amended_formula_inline (bm : List (String × String)) (st : RenderState)
    (item : RunItem) (hf : item.typ = "formula") :
    (renderRunItem bm st item).footnotes = st.footnotes ∧
      (renderRunItem bm st item).endnotes = st.endnotes ∧
      (renderRunItem bm st item).uuidSupply = st.uuidSupply ∧
      ((item.text = "" ∧ renderRunItem bm st item = st) ∨
        (∃ om m, latexToOmml item.text "center" = some om ∧ findOMathX om = some m ∧
          (renderRunItem bm st item).para = st.para ++ [m]) ∨
        (∃ om, latexToOmml item.text "center" = some om ∧ findOMathX om = none ∧
          renderRunItem bm st item = st) ∨
        (latexToOmml item.text "center" = none ∧
          (renderRunItem bm st item).para = st.para ++ [errorRun item.text])) := by
  by_cases h0 : item.text = ""
  · have hr : renderRunItem bm st item = st := by
      simp [renderRunItem, hf, h0]
    rw [hr]
    exact ⟨rfl, rfl, rfl, Or.inl ⟨h0, rfl⟩⟩
  · cases hom : latexToOmml item.text "center" with
    | none =>
      have hr : renderRunItem bm st item = { st with para := st.para ++ [errorRun item.text] } := by
        simp [renderRunItem, hf, h0, hom]
      rw [hr]
      exact ⟨rfl, rfl, rfl, Or.inr (Or.inr (Or.inr ⟨rfl, rfl⟩))⟩
    | some om =>
      cases hfm : findOMathX om with
      | none =>
        have hr : renderRunItem bm st item = st := by
          simp [renderRunItem, hf, h0, hom, hfm]
        rw [hr]
        exact ⟨rfl, rfl, rfl, Or.inr (Or.inr (Or.inl ⟨om, rfl, hfm, rfl⟩))⟩
      | some m =>
        have hr : renderRunItem bm st item = { st with para := st.para ++ [m] } := by
          simp [renderRunItem, hf, h0, hom, hfm]
        rw [hr]
        exact ⟨rfl, rfl, rfl, Or.inr (Or.inl ⟨om, m, rfl, hfm, rfl⟩)⟩

/-- Witness for the amended C2 at the Formula run `x` in an empty
paragraph state. -/
theorem C2_amended_witness :
    (RunItem.mk "formula" "x" none).typ = "formula" ∧
      ((renderRunItem [] c2St0 ⟨"formula", "x", none⟩).footnotes = c2St0.footnotes ∧
        (renderRunItem [] c2St0 ⟨"formula", "x", none⟩).endnotes = c2St0.endnotes ∧
        (renderRunItem [] c2St0 ⟨"formula", "x", none⟩).uuidSupply = c2St0.uuidSupply ∧
        (((RunItem.mk "formula" "x" none).text = "" ∧
            renderRunItem [] c2St0 ⟨"formula", "x", none⟩ = c2St0) ∨
          (∃ om m, latexToOmml "x" "center" = some om ∧ findOMathX om = some m ∧
            (renderRunItem [] c2St0 ⟨"formula", "x", none⟩).para = c2St0.para ++ [m]) ∨
          (∃ om, latexToOmml "x" "center" = some om ∧ findOMathX om = none ∧
            renderRunItem [] c2St0 ⟨"formula", "x", none⟩ = c2St0) ∨
          (latexToOmml "x" "center" = none ∧
            (renderRunItem [] c2St0 ⟨"formula", "x", none⟩).para
              = c2St0.para ++ [errorRun "x"]))) :=
  ⟨rfl, C2_amended_formula_inline [] c2St0 ⟨"formula", "x", none⟩ rfl⟩

/-- Claim C6: whenever a CrossReference run's (stripped) target was
registered by the same section's bookmark pre-scan, the rendered
field's cached display text equals exactly the flattened text of the
bookmark paragraph that registered it — the paragraph's plain text, or
the concatenation of its Text runs in order. -/
theorem C6_crossref_display (elements : List ElementIR) (target txt : String)
    (htb : target ≠ "")
    (h : (scanBookmarks elements).lookup (pyStrip target) = some txt) :
    cachedFieldDisplay (renderCrossRef (scanBookmarks elements) (some target)) = some txt ∧
      ∃ el ∈ elements, el.typ = "paragraph" ∧ bookmarkIdOf el = some (pyStrip target) ∧
        flattenedText el = txt := by
  constructor
  · simp [renderCrossRef, htb, h, cachedFieldDisplay, addCrossReferenceField, runText]
  · exact scan_mem elements (pyStrip target) txt h

/-- Witness for C6: a section with one bookmarked paragraph and a
target that needs stripping. -/
theorem C6_witness :
    (" sec1 " : String) ≠ "" ∧
      (scanBookmarks c6Elements).lookup (pyStrip " sec1 ") = some "Intro" ∧
      cachedFieldDisplay (renderCrossRef (scanBookmarks c6Elements) (some " sec1 "))
          = some "Intro" ∧
      ∃ el ∈ c6Elements, el.typ = "paragraph" ∧ bookmarkIdOf el = some (pyStrip " sec1 ") ∧
        flattenedText el = "Intro" :=
  ⟨by decide, rfl,
    C6_crossref_display c6Elements " sec1 " "Intro" (by decide) rfl⟩

/-- Claim C7: the numbering scenario.  Linking style "Heading 1" to
level 0 with number format decimal and text-format "%1." creates a new
abstract definition (id 6, strictly above the pre-existing id 5) whose
level-0 `w:lvl` carries `w:numFmt` decimal and `w:lvlText` "%1.", a
new instance (id 4, strictly above the pre-existing id 3) pointing at
it, and rewrites the Heading1 style to carry numbering paragraph
properties `w:numPr` with `w:ilvl` 0 and `w:numId` 4. -/
theorem C7_numbering_scenario :
    post_process_numbering_core c7NumberingRoot c7StylesRoot [c7Def]
        = (.elem "w:numbering" [] none
            [.elem "w:abstractNum" [("w:abstractNumId", "5")] none [],
             .elem "w:num" [("w:numId", "3")] none
               [.elem "w:abstractNumId" [("w:val", "5")] none []],
             .elem "w:abstractNum" [("w:abstractNumId", "6")] none
               [.elem "w:multiLevelType" [("w:val", "multilevel")] none [],
                .elem "w:lvl" [("w:ilvl", "0")] none
                  [.elem "w:start" [("w:val", "1")] none [],
                   .elem "w:numFmt" [("w:val", "decimal")] none [],
                   .elem "w:lvlText" [("w:val", "%1.")] none [],
                   .elem "w:pPr" [] none
                     [.elem "w:ind" [("w:left", "0"), ("w:hanging", "360")] none []]]],
             .elem "w:num" [("w:numId", "4")] none
               [.elem "w:abstractNumId" [("w:val", "6")] none []]],
           .elem "w:styles" [] none
            [.elem "w:style" [("w:type", "paragraph"), ("w:styleId", "Heading1")] none
               [.elem "w:name" [("w:val", "heading 1")] none [],
                .elem "w:pPr" [] none
                  [.elem "w:numPr" [] none
                     [.elem "w:ilvl" [("w:val", "0")] none [],
                      .elem "w:numId" [("w:val", "4")] none []]]]]) ∧
      (∀ i ∈ abstractNumIds c7NumberingRoot, i < 6) ∧
      (∀ i ∈ numInstanceIds c7NumberingRoot, i < 4) := by
  refine ⟨rfl, ?_, ?_⟩ <;> decide

end AWE
